import Mathlib

/-!
Shallow embedding of the N1 license server (repository
`Thangtran1998/n1-license-server`).

The canonical implementation is `src/server.js` (flat JSON-file store).
Two variants are also modelled where claims depend on them:
`src/unnamed/part_000` (same store, shared `authFromDeviceLicense` helper
that persists during auth) and `src/unnamed/part_001` (Postgres store,
full-length V1 licenses, no clamping of the progress counter).

JavaScript strings are modelled as `List Char` (`Str`).  The SHA-256
primitive (`crypto.createHash("sha256")...digest("hex")`) is kept
abstract as a function parameter `sha256Hex : Str → Str` inside `Env`;
everything else is translated directly from the source.  Timestamps
(`new Date().toISOString()`), the current date (`yyyymmddToday()`) and
generated ids (`crypto.randomUUID()...`) enter the handlers as explicit
parameters `now`, `today`, `freshId`.  A handler returns
`(response, state)` where the state component is the persisted database
after the call: `server.js` handlers only ever call `saveDB` immediately
before returning, except for the `part_000` auth helper, which is
modelled with its intermediate save.
-/

namespace N1License

/-- JavaScript strings, modelled as lists of characters. -/
abbrev Str := List Char

/-- Coerce a Lean string literal to the `Str` model. -/
def str (s : String) : Str := s.data

/-- JS `String.prototype.trim()`: strip leading and trailing whitespace. -/
def jsTrim (s : Str) : Str :=
  ((s.dropWhile Char.isWhitespace).reverse.dropWhile Char.isWhitespace).reverse

/-- JS `<` on strings: lexicographic comparison by code unit. -/
def jsLt : Str → Str → Bool
  | [], [] => false
  | [], _ :: _ => true
  | _ :: _, [] => false
  | c :: cs, d :: ds => if c < d then true else if d < c then false else jsLt cs ds

/-- JS `s.split(".")`: split at every `'.'`, keeping empty segments. -/
def splitOnDot : Str → List Str
  | [] => [[]]
  | c :: cs =>
    if c = '.' then [] :: splitOnDot cs
    else
      match splitOnDot cs with
      | t :: ts => (c :: t) :: ts
      | [] => [[c]]

/-- JS `s.split("-")`, used by `part_001`'s `parseAndValidateV1`. -/
def splitOnDash : Str → List Str
  | [] => [[]]
  | c :: cs =>
    if c = '-' then [] :: splitOnDash cs
    else
      match splitOnDash cs with
      | t :: ts => (c :: t) :: ts
      | [] => [[c]]

/-- Character class `[a-f0-9]` under the `/i` flag. -/
def isHexCI (c : Char) : Bool :=
  c.isDigit || ('a' ≤ c && c ≤ 'f') || ('A' ≤ c && c ≤ 'F')

/-- Character class `[a-zA-Z0-9_-]` of `normalizeUserId`. -/
def isIdChar (c : Char) : Bool :=
  c.isAlpha || c.isDigit || c = '_' || c = '-'

/-- JS `String.prototype.toLowerCase()` restricted to ASCII (all inputs here
are hex digits). -/
def toLowerStr (s : Str) : Str := s.map Char.toLower

/-- Test for the regex `^\d{8}$` (expiry format). -/
def isDigits8 (s : Str) : Bool := s.length = 8 && s.all Char.isDigit

/-- Test for the regex `^[a-f0-9]{24}$/i` (new-format hash). -/
def isHex24 (s : Str) : Bool := s.length = 24 && s.all isHexCI

/-- Test for the legacy regex `^(\d{8})-([a-f0-9]{64})$/i`:
8 digits, a dash, 64 hex characters (total length 73, dash at index 8). -/
def isLegacyFormat (s : Str) : Bool :=
  s.length = 73 && (s.take 8).all Char.isDigit && s.get? 8 = some '-'
    && (s.drop 9).all isHexCI

/-- Environment of a running server: the abstract SHA-256 hex digest
primitive, `LICENSE_SECRET`, and `ADMIN_KEY` (absent when the env var is
unset). -/
structure Env where
  sha256Hex : Str → Str
  secret : Str
  adminKey : Option Str

/-- Model of `computeLicenseHash(deviceId, expiry)` in `src/server.js`
(lines 76-78): `sha256Hex(deviceId + "|" + expiry + "|" + SECRET)` truncated
to its first 24 characters by `.slice(0, 24)`. -/
def computeLicenseHash (env : Env) (deviceId expiry : Str) : Str :=
  (env.sha256Hex (deviceId ++ str "|" ++ expiry ++ str "|" ++ env.secret)).take 24

/-- Result of `parseLicense`: the expiry and hash components. -/
structure Parsed where
  expiry : Str
  hash : Str
deriving DecidableEq

/-- Model of `parseLicense(license)` in `src/server.js` (lines 80-101).
Supports the legacy format `yyyymmdd-hash64` (hash lower-cased) and the new
format `N1.yyyymmdd.hash24`. -/
def parseLicense (license : Str) : Option Parsed :=
  if isLegacyFormat (jsTrim license) then
    some ⟨(jsTrim license).take 8, toLowerStr ((jsTrim license).drop 9)⟩
  else
    match splitOnDot (jsTrim license) with
    | [a, e, h] =>
      if a = str "N1" && isDigits8 e && isHex24 h then some ⟨e, h⟩ else none
    | _ => none

/-- Model of `normalizeUserId(userId)` in `src/server.js` (lines 112-117):
trim, then require the shape `^[a-zA-Z0-9_-]{1,64}$`, else return `""`. -/
def normalizeUserId (userId : Str) : Str :=
  let s := jsTrim userId
  if s = [] then []
  else if 1 ≤ s.length && s.length ≤ 64 && s.all isIdChar then s
  else []

/-- Model of `clampInt(n, min, max)` in `src/server.js` (lines 145-149) on
integer inputs (the non-finite guard of the JS version cannot fire for the
integer-valued counters modelled here). -/
def clampInt (n mn mx : Int) : Int := max mn (min mx n)

/-- Model of `calcPercentFromPerfectCount(c)` in `src/server.js`
(lines 151-156). -/
def calcPercentFromPerfectCount (c : Int) : Int :=
  if c ≤ 0 then 0 else if c = 1 then 33 else if c = 2 then 67 else 100

/-- Finite string-keyed maps, modelling plain JS objects used as
dictionaries. -/
def Map (α : Type) := Str → Option α

/-- Set a key of a JS-object map (`obj[k] = v`). -/
def Map.set {α : Type} (m : Map α) (k : Str) (v : α) : Map α :=
  fun k' => if k' = k then some v else m k'

/-- Delete a key of a JS-object map (`delete obj[k]`). -/
def Map.del {α : Type} (m : Map α) (k : Str) : Map α :=
  fun k' => if k' = k then none else m k'

/-- Empty JS-object map (`{}`). -/
def Map.empty {α : Type} : Map α := fun _ => none

/-- License record stored at `db[license]` in `src/server.js`.  The
fallback-created record (verify, lines 192-199) carries `firstUsedAt`; the
admin-generated record (lines 283-290) carries `createdAt`; the unused field
is `""`. -/
structure LicenseRec where
  deviceId : Str
  expiry : Str
  userId : Str
  userName : Str
  examDate : Str
  createdAt : Str
  firstUsedAt : Str
deriving DecidableEq

/-- Entry of `__revokedDevices` / `__revokedUsers`; `revokedAt` renders the
source field `at` (a Lean keyword). -/
structure RevEntry where
  reason : Str
  revokedAt : Str
deriving DecidableEq

/-- Entry of `__users`. -/
structure UserRec where
  userName : Str
  examDate : Str
  createdAt : Str
deriving DecidableEq

/-- Entry of `__userDevices`: a set of device ids (`devices[d] = true`) plus
`lastSeenAt`. -/
structure UserDevices where
  devices : Str → Bool
  lastSeenAt : Str

/-- Entry of `__progress[userId][testId]`. -/
structure ProgressRec where
  perfectCount : Int
  updatedAt : Str
  recentAttempts : List Str
deriving DecidableEq

/-- The JSON database document of `src/server.js` / `part_000`: license
records keyed by license string plus the `__`-prefixed side tables. -/
structure DB where
  licenses : Map LicenseRec
  revokedDevices : Map RevEntry
  revokedUsers : Map RevEntry
  users : Map UserRec
  userDevices : Map UserDevices
  progress : Map (Map ProgressRec)

/-- Fresh database, as produced by `loadDB()` when no file exists. -/
def DB.empty : DB :=
  ⟨Map.empty, Map.empty, Map.empty, Map.empty, Map.empty, Map.empty⟩

/-- Model of `isUserRevoked(db, userId)` (`src/server.js` lines 136-138). -/
def isUserRevoked (db : DB) (userId : Str) : Bool :=
  (db.revokedUsers userId).isSome

/-- Model of `isDeviceRevoked(db, deviceId)` (`src/server.js`
lines 140-142). -/
def isDeviceRevoked (db : DB) (deviceId : Str) : Bool :=
  (db.revokedDevices deviceId).isSome

/-- Model of `ensureUserRecord(db, userId, userName, examDate)`
(`src/server.js` lines 119-128).  Missing JS arguments are passed as `""`. -/
def ensureUserRecord (db : DB) (userId userName examDate now : Str) : DB :=
  let u0 : UserRec := (db.users userId).getD
    ⟨jsTrim userName, jsTrim examDate, now⟩
  let u1 : UserRec := if userName ≠ [] then { u0 with userName := jsTrim userName } else u0
  let u2 : UserRec := if examDate ≠ [] then { u1 with examDate := jsTrim examDate } else u1
  { db with
    users := db.users.set userId u2
    userDevices :=
      match db.userDevices userId with
      | some _ => db.userDevices
      | none => db.userDevices.set userId ⟨fun _ => false, []⟩ }

/-- Model of `attachDeviceToUser(db, userId, deviceId)` (`src/server.js`
lines 130-134). -/
def attachDeviceToUser (db : DB) (userId deviceId now : Str) : DB :=
  let db1 := ensureUserRecord db userId [] [] now
  let ud : UserDevices := (db1.userDevices userId).getD ⟨fun _ => false, []⟩
  { db1 with
    userDevices := db1.userDevices.set userId
      ⟨fun d => if d = deviceId then true else ud.devices d, now⟩ }

/-- Response of `POST /api/verify`: an error (`res.status(code).send(msg)`)
or the success JSON of `src/server.js` lines 205-213 / 232-240. -/
inductive VerifyResp where
  | err (code : Nat) (msg : Str)
  | ok (userId expiry userName examDate : Str) (bound firstBind : Bool)
deriving DecidableEq

/-- Response of `POST /api/progress/mark-perfect`.  The non-deduped success
JSON carries no `deduped` field; it is modelled as `deduped = false`. -/
inductive MarkResp where
  | err (code : Nat) (msg : Str)
  | ok (deduped : Bool) (perfectCount percent : Int) (completed : Bool)
deriving DecidableEq

/-- Response of `POST /api/admin/generate`. -/
inductive GenResp where
  | err (code : Nat) (msg : Str)
  | ok (license expiry userId userName examDate : Str)
deriving DecidableEq

/-- Response of the four admin revocation endpoints. -/
inductive RevokeResp where
  | err (code : Nat) (msg : Str)
  | ok (targetId : Str) (revoked : Bool)
deriving DecidableEq

/-- Per-test entry of the `POST /api/progress/get` response data. -/
structure OutRec where
  perfectCount : Int
  percent : Int
  completed : Bool
  updatedAt : Str
deriving DecidableEq

/-- Response of `POST /api/progress/get`. -/
inductive GetResp where
  | err (code : Nat) (msg : Str)
  | ok (userId : Str) (data : Map OutRec)

/-- Model of `POST /api/verify` in `src/server.js` (lines 164-241).
Arguments: request body fields (`deviceId`, `license`; a missing JSON field
is `""`), the current date `today` (`yyyymmddToday()`), the timestamp `now`
(`new Date().toISOString()`) and the generated id `freshId`
(`crypto.randomUUID()` with dashes removed, truncated to 20 characters).
Returns the response and the persisted database. -/
def verify (env : Env) (db : DB) (deviceId license today now freshId : Str) :
    VerifyResp × DB :=
  if deviceId = [] || license = [] then
    (.err 400 (str "Missing deviceId/license"), db)
  else
    match parseLicense license with
    | none => (.err 400 (str "Bad license format"), db)
    | some p =>
      if jsLt p.expiry today then (.err 403 (str "Expired"), db)
      else if computeLicenseHash env deviceId p.expiry ≠ p.hash then
        (.err 403 (str "Invalid"), db)
      else if isDeviceRevoked db deviceId then
        (.err 403 (str "Device revoked"), db)
      else
        match db.licenses license with
        | none =>
          -- legacy support: license absent from the DB, create it now
          let userId := freshId
          let db1 := { db with licenses := (db.licenses.set license
            ⟨deviceId, p.expiry, userId, str "User", [], [], now⟩) }
          let db2 := ensureUserRecord db1 userId (str "User") [] now
          let db3 := attachDeviceToUser db2 userId deviceId now
          (.ok userId p.expiry (str "User") [] true true, db3)
        | some rec =>
          let userId := rec.userId
          if userId ≠ [] && isUserRevoked db userId then
            (.err 403 (str "User revoked"), db)
          else if rec.deviceId ≠ deviceId then
            (.err 403 (str "License already bound to another device"), db)
          else
            let db' := if userId ≠ [] then attachDeviceToUser db userId deviceId now
                       else db
            (.ok userId p.expiry
              (if rec.userName = [] then str "User" else rec.userName)
              rec.examDate true false, db')

/-- Model of `POST /api/admin/generate` in `src/server.js` (lines 256-306).
`headerKey` is the `x-admin-key` request header (`none` when absent). -/
def adminGenerate (env : Env) (db : DB) (headerKey : Option Str)
    (deviceId expiry userName examDate userId now freshId : Str) :
    GenResp × DB :=
  match env.adminKey with
  | none => (.err 500 (str "Missing ADMIN_KEY on server"), db)
  | some k =>
    if headerKey ≠ some k then (.err 401 (str "Unauthorized"), db)
    else if deviceId = [] || expiry = [] || userName = [] then
      (.err 400 (str "Missing deviceId/expiry/userName"), db)
    else if ¬ isDigits8 expiry then
      (.err 400 (str "Bad expiry format (yyyymmdd)"), db)
    else
      let uid := if normalizeUserId userId = [] then freshId
                 else normalizeUserId userId
      let hash := computeLicenseHash env deviceId expiry
      let license := str "N1" ++ str "." ++ expiry ++ str "." ++ hash
      let db1 := { db with licenses := (db.licenses.set license
        ⟨deviceId, expiry, uid, jsTrim userName, jsTrim examDate, now, []⟩) }
      let db2 := ensureUserRecord db1 uid userName examDate now
      let db3 := attachDeviceToUser db2 uid deviceId now
      (.ok license expiry uid (jsTrim userName) (jsTrim examDate), db3)

/-- Model of `POST /api/admin/revoke-device` in `src/server.js`
(lines 309-325). -/
def revokeDevice (env : Env) (db : DB) (headerKey : Option Str)
    (deviceId reason now : Str) : RevokeResp × DB :=
  match env.adminKey with
  | none => (.err 500 (str "Missing ADMIN_KEY on server"), db)
  | some k =>
    if headerKey ≠ some k then (.err 401 (str "Unauthorized"), db)
    else if deviceId = [] then (.err 400 (str "Missing deviceId"), db)
    else
      (.ok deviceId true,
        { db with revokedDevices := (db.revokedDevices.set deviceId
          ⟨(if reason = [] then str "revoked" else reason).take 200, now⟩) })

/-- Model of `POST /api/admin/unrevoke-device` in `src/server.js`
(lines 328-341). -/
def unrevokeDevice (env : Env) (db : DB) (headerKey : Option Str)
    (deviceId : Str) : RevokeResp × DB :=
  match env.adminKey with
  | none => (.err 500 (str "Missing ADMIN_KEY on server"), db)
  | some k =>
    if headerKey ≠ some k then (.err 401 (str "Unauthorized"), db)
    else if deviceId = [] then (.err 400 (str "Missing deviceId"), db)
    else (.ok deviceId false,
      { db with revokedDevices := db.revokedDevices.del deviceId })

/-- Model of `POST /api/admin/revoke-user` in `src/server.js`
(lines 344-363). -/
def revokeUser (env : Env) (db : DB) (headerKey : Option Str)
    (userId reason now : Str) : RevokeResp × DB :=
  match env.adminKey with
  | none => (.err 500 (str "Missing ADMIN_KEY on server"), db)
  | some k =>
    if headerKey ≠ some k then (.err 401 (str "Unauthorized"), db)
    else
      let uid := normalizeUserId userId
      if uid = [] then (.err 400 (str "Missing/Bad userId"), db)
      else
        let db1 := ensureUserRecord db uid [] [] now
        (.ok uid true,
          { db1 with revokedUsers := (db1.revokedUsers.set uid
            ⟨(if reason = [] then str "revoked" else reason).take 200, now⟩) })

/-- Model of `POST /api/admin/unrevoke-user` in `src/server.js`
(lines 366-380). -/
def unrevokeUser (env : Env) (db : DB) (headerKey : Option Str)
    (userId : Str) : RevokeResp × DB :=
  match env.adminKey with
  | none => (.err 500 (str "Missing ADMIN_KEY on server"), db)
  | some k =>
    if headerKey ≠ some k then (.err 401 (str "Unauthorized"), db)
    else
      let uid := normalizeUserId userId
      if uid = [] then (.err 400 (str "Missing/Bad userId"), db)
      else (.ok uid false,
        { db with revokedUsers := db.revokedUsers.del uid })

/-- Model of `POST /api/progress/get` in `src/server.js` (lines 423-473).
A non-array `testIds` body field is modelled as the empty list, mirroring
the `Array.isArray` guard. -/
def getProgress (env : Env) (db : DB)
    (deviceId license : Str) (testIds : List Str) (today now : Str) :
    GetResp × DB :=
  if deviceId = [] || license = [] then
    (.err 400 (str "Missing deviceId/license"), db)
  else
    match parseLicense license with
    | none => (.err 400 (str "Bad license format"), db)
    | some p =>
      if jsLt p.expiry today then (.err 403 (str "Expired"), db)
      else if computeLicenseHash env deviceId p.expiry ≠ p.hash then
        (.err 403 (str "Invalid"), db)
      else
        match db.licenses license with
        | none => (.err 403 (str "License not found"), db)
        | some rec =>
          if rec.deviceId ≠ deviceId then
            (.err 403 (str "License bound to another device"), db)
          else if rec.userId = [] then
            (.err 500 (str "License missing userId"), db)
          else if isDeviceRevoked db deviceId then
            (.err 403 (str "Device revoked"), db)
          else if isUserRevoked db rec.userId then
            (.err 403 (str "User revoked"), db)
          else
            let userId := rec.userId
            let db1 := attachDeviceToUser db userId deviceId now
            let bucket := (db1.progress userId).getD Map.empty
            let db2 := { db1 with progress := db1.progress.set userId bucket }
            let out := testIds.foldl
              (fun acc id =>
                let tid := jsTrim id
                if tid = [] then acc
                else
                  let r := (bucket tid).getD ⟨0, [], []⟩
                  let c := clampInt r.perfectCount 0 3
                  acc.set tid ⟨c, calcPercentFromPerfectCount c,
                    decide (3 ≤ c), r.updatedAt⟩)
              Map.empty
            (.ok userId out, db2)

/-- Progress-update tail of `POST /api/progress/mark-perfect`
(`src/server.js` lines 510-549; identical code at `src/unnamed/part_000`
lines 422-444): bucket creation, attempt dedup, and the clamped
increment.  The preceding `attachDeviceToUser` call happens at the call
site in `src/server.js` (line 508) and inside `authFromDeviceLicense` in
`part_000`. -/
def markPerfectUpdate (db : DB) (userId tid aId now : Str) :
    MarkResp × DB :=
  let bucket := (db.progress userId).getD Map.empty
  let pRec := (bucket tid).getD ⟨0, [], []⟩
  if aId ≠ [] && pRec.recentAttempts.contains aId then
    let c := clampInt pRec.perfectCount 0 3
    (.ok true c (calcPercentFromPerfectCount c) (decide (3 ≤ c)),
      { db with progress := (db.progress.set userId
        (bucket.set tid pRec)) })
  else
    let recent1 := if aId = [] then pRec.recentAttempts
      else
        let pushed := pRec.recentAttempts ++ [aId]
        if 20 < pushed.length then pushed.drop 1 else pushed
    let c := clampInt (pRec.perfectCount + 1) 0 3
    let pRec' : ProgressRec := ⟨c, now, recent1⟩
    (.ok false c (calcPercentFromPerfectCount c) (decide (3 ≤ c)),
      { db with progress := (db.progress.set userId
        (bucket.set tid pRec')) })

/-- Model of `POST /api/progress/mark-perfect` in `src/server.js`
(lines 476-550). -/
def markPerfect (env : Env) (db : DB)
    (deviceId license testId attemptId today now : Str) : MarkResp × DB :=
  if deviceId = [] || license = [] || testId = [] then
    (.err 400 (str "Missing deviceId/license/testId"), db)
  else
    match parseLicense license with
    | none => (.err 400 (str "Bad license format"), db)
    | some p =>
      if jsLt p.expiry today then (.err 403 (str "Expired"), db)
      else if computeLicenseHash env deviceId p.expiry ≠ p.hash then
        (.err 403 (str "Invalid"), db)
      else
        match db.licenses license with
        | none => (.err 403 (str "License not found"), db)
        | some rec =>
          if rec.deviceId ≠ deviceId then
            (.err 403 (str "License bound to another device"), db)
          else if rec.userId = [] then
            (.err 500 (str "License missing userId"), db)
          else if isDeviceRevoked db deviceId then
            (.err 403 (str "Device revoked"), db)
          else if isUserRevoked db rec.userId then
            (.err 403 (str "User revoked"), db)
          else
            let userId := rec.userId
            let tid := jsTrim testId
            if tid = [] then (.err 400 (str "Bad testId"), db)
            else markPerfectUpdate (attachDeviceToUser db userId deviceId now)
              userId tid (jsTrim attemptId) now

/-! Variant `src/unnamed/part_000`: same JSON store and helpers as
`src/server.js`, but user routes authenticate through
`authFromDeviceLicense`, which persists the device-tracking update
(`attachDeviceToUser` + `saveDB`) as soon as authentication succeeds. -/

/-- Result of `authFromDeviceLicense`. -/
inductive AuthResult where
  | fail (code : Nat) (msg : Str)
  | pass (userId : Str) (rec : LicenseRec)
deriving DecidableEq

/-- Model of `authFromDeviceLicense(db, deviceId, license)` in
`src/unnamed/part_000` (lines 196-220).  On success the function has
already called `attachDeviceToUser` and `saveDB`; the returned database is
the persisted one. -/
def authFromDeviceLicense (env : Env) (db : DB)
    (deviceId license today now : Str) : AuthResult × DB :=
  match parseLicense license with
  | none => (.fail 400 (str "Bad license format"), db)
  | some p =>
    if jsLt p.expiry today then (.fail 403 (str "Expired"), db)
    else if computeLicenseHash env deviceId p.expiry ≠ p.hash then
      (.fail 403 (str "Invalid"), db)
    else
      match db.licenses license with
      | none => (.fail 403 (str "License not found"), db)
      | some lrec =>
        if lrec.deviceId ≠ deviceId then
          (.fail 403 (str "License bound to another device"), db)
        else if lrec.userId = [] then
          (.fail 500 (str "License missing userId"), db)
        else if isDeviceRevoked db deviceId then
          (.fail 403 (str "Device revoked"), db)
        else if isUserRevoked db lrec.userId then
          (.fail 403 (str "User revoked"), db)
        else (.pass lrec.userId lrec,
          attachDeviceToUser db lrec.userId deviceId now)

/-- Model of `POST /api/progress/mark-perfect` in `src/unnamed/part_000`
(lines 411-445).  Note the `Bad testId` error (line 420) fires after
`authFromDeviceLicense` already persisted its tracking update. -/
def markPerfectP0 (env : Env) (db : DB)
    (deviceId license testId attemptId today now : Str) : MarkResp × DB :=
  if deviceId = [] || license = [] || testId = [] then
    (.err 400 (str "Missing deviceId/license/testId"), db)
  else
    match authFromDeviceLicense env db deviceId license today now with
    | (.fail c m, db1) => (.err c m, db1)
    | (.pass userId _, db1) =>
      let tid := jsTrim testId
      if tid = [] then (.err 400 (str "Bad testId"), db1)
      else markPerfectUpdate db1 userId tid (jsTrim attemptId) now

/-! Variant `src/unnamed/part_001`: Postgres-backed server with full-length
V1 licenses `yyyymmdd-<sha256 hex>`.  Rows are modelled as maps keyed by
license / user id; `NOW()` and dates enter as string parameters, and
`formatDate` is modelled as the identity on the stored `YYYYMMDD`
string. -/

/-- Row of the `licenses` table (`license, user_id, device_id, expiry,
created_at`); `device_id` is nullable. -/
structure PgLicense where
  userId : Str
  deviceId : Option Str
  expiry : Str
  createdAt : Str
deriving DecidableEq

/-- Row of the `users` table. -/
structure PgUser where
  userName : Str
  examDate : Option Str
  createdAt : Str
deriving DecidableEq

/-- Value stored under one module id inside the `progress.perfect` JSON
document. -/
structure PgModuleRec where
  perfectCount : Int
deriving DecidableEq

/-- Row of the `progress` table: the `perfect` JSON document plus
`updated_at`. -/
structure PgProgressRow where
  perfect : Map PgModuleRec
  updatedAt : Str

/-- The Postgres database of `src/unnamed/part_001` (tables used by the
license/progress endpoints). -/
structure PgDB where
  licenses : Map PgLicense
  users : Map PgUser
  revokedDevices : Str → Bool
  revokedUsers : Str → Bool
  progress : Map PgProgressRow

/-- Model of `parseAndValidateV1(license, deviceId, secret)` in
`src/unnamed/part_001` (lines 111-126): split on `-`, require an 8-digit
expiry, and compare the hash against the full (untruncated) SHA-256 digest
recomputed for `deviceId`. -/
def parseAndValidateV1 (env : Env) (license deviceId : Str) :
    Option (Str × Str) :=
  match splitOnDash license with
  | [expiry, hash] =>
    if isDigits8 expiry then
      let expectedHash :=
        env.sha256Hex (deviceId ++ str "|" ++ expiry ++ str "|" ++ env.secret)
      if hash = expectedHash then some (expiry, hash) else none
    else none
  | _ => none

/-- Model of `isExpiryValid(expiryStr)` in `src/unnamed/part_001`
(lines 131-138): `expiryStr >= todayStr`. -/
def isExpiryValid (expiry today : Str) : Bool := ¬ jsLt expiry today

/-- Model of `POST /api/verify` in `src/unnamed/part_001` (lines 201-303).
The signature is validated inside `parseAndValidateV1` before the expiry
check; a rolled-back transaction leaves the database unchanged. -/
def verifyP1 (env : Env) (db : PgDB) (deviceId license today : Str) :
    VerifyResp × PgDB :=
  if deviceId = [] || license = [] then
    (.err 400 (str "Missing deviceId or license"), db)
  else
    match parseAndValidateV1 env license deviceId with
    | none => (.err 400 (str "Invalid license format or hash"), db)
    | some (expiry, _) =>
      if ¬ isExpiryValid expiry today then (.err 400 (str "Expired"), db)
      else
        match db.licenses license with
        | none => (.err 404 (str "License not found"), db)
        | some lrec =>
          if db.revokedDevices deviceId then
            (.err 403 (str "Device revoked"), db)
          else if db.revokedUsers lrec.userId then
            (.err 403 (str "User revoked"), db)
          else
            -- `!boundDeviceId` in JS: a NULL column and an empty string are
            -- both falsy, so the nullable column is read through `getD []`.
            let bound := lrec.deviceId.getD []
            let isFirstBind := bound = []
            if bound ≠ [] && bound ≠ deviceId then
              (.err 403 (str "License already bound to another device"), db)
            else
              let db' := if isFirstBind then
                  { db with licenses := (db.licenses.set license
                    { lrec with deviceId := some deviceId }) }
                else db
              let (userName, examDate) := match db.users lrec.userId with
                | some u => (u.userName, u.examDate.getD [])
                | none => ([], [])
              (.ok lrec.userId expiry userName examDate
                (!isFirstBind) isFirstBind, db')

/-- Response of `POST /api/progress/mark-perfect` in
`src/unnamed/part_001`. -/
inductive MarkP1Resp where
  | err (code : Nat) (msg : Str)
  | ok (moduleId : Str) (perfectCount : Int)
deriving DecidableEq

/-- Model of `POST /api/progress/mark-perfect` in `src/unnamed/part_001`
(lines 381-468): no expiry check, no device-revocation check, no attempt
dedup, and an unclamped increment of the per-module counter. -/
def markPerfectP1 (env : Env) (db : PgDB)
    (deviceId license moduleId now : Str) : MarkP1Resp × PgDB :=
  if deviceId = [] || license = [] || moduleId = [] then
    (.err 400 (str "Missing deviceId, license or moduleId"), db)
  else
    match parseAndValidateV1 env license deviceId with
    | none => (.err 400 (str "Invalid license"), db)
    | some _ =>
      match db.licenses license with
      | none => (.err 404 (str "License not found"), db)
      | some lrec =>
        if db.revokedUsers lrec.userId then
          (.err 403 (str "User revoked"), db)
        else
          let perfectObj := ((db.progress lrec.userId).map
            (·.perfect)).getD Map.empty
          let newCount := match perfectObj moduleId with
            | none => 1
            | some r => r.perfectCount + 1
          let perfectObj' := perfectObj.set moduleId ⟨newCount⟩
          (.ok moduleId newCount,
            { db with progress := (db.progress.set lrec.userId
              ⟨perfectObj', now⟩) })

/-! Concrete fixtures used by witnesses and counterexamples. -/

/-- A constant stand-in for the SHA-256 hex digest: 64 zero characters for
every input (well-formed: 64 lower-case hex characters). -/
def shaZeros : Str → Str := fun _ =>
  str "0000000000000000000000000000000000000000000000000000000000000000"

/-- A stand-in digest that distinguishes device `devB` from every other
input, so that the two devices' license hashes differ as real SHA-256
digests would. -/
def shaAB : Str → Str := fun s =>
  if s = str "devB|20990101|sec" then
    str "1111111111111111111111111111111111111111111111111111111111111111"
  else
    str "0000000000000000000000000000000000000000000000000000000000000000"

/-- Environment with the constant digest. -/
def envZ : Env := ⟨shaZeros, str "sec", some (str "adminkey")⟩

/-- Environment with the device-distinguishing digest. -/
def envAB : Env := ⟨shaAB, str "sec", some (str "adminkey")⟩

/-- A valid new-format license for device `devA`, expiry `20990101`, under
`envZ` (hash = first 24 characters of the constant digest). -/
def licA : Str := str "N1.20990101.000000000000000000000000"

/-- A database holding `licA` bound to `devA`, owned by `userA`, with the
matching user and device-tracking records. -/
def dbA : DB :=
  { licenses := Map.empty.set licA
      ⟨str "devA", str "20990101", str "userA", str "Alice", [], str "tc", []⟩
    revokedDevices := Map.empty
    revokedUsers := Map.empty
    users := Map.empty.set (str "userA") ⟨str "Alice", [], str "tc"⟩
    userDevices := Map.empty.set (str "userA")
      ⟨fun d => d = str "devA", str "t0"⟩
    progress := Map.empty }

/-- `dbA` with a saturated progress record (`perfectCount = 3`) for
`(userA, math1)`. -/
def dbSat : DB :=
  { dbA with progress := (Map.empty.set (str "userA")
      (Map.empty.set (str "math1") ⟨3, str "t1", [str "a0"]⟩)) }

/-- `dbA` with a progress record for `(userA, math1)` whose
`recentAttempts` already contains attempt `a1`. -/
def dbDup : DB :=
  { dbA with progress := (Map.empty.set (str "userA")
      (Map.empty.set (str "math1") ⟨2, str "t1", [str "a1"]⟩)) }

/-- Empty Postgres database for the `part_001` model. -/
def pgEmpty : PgDB := ⟨Map.empty, Map.empty, fun _ => false, fun _ => false, Map.empty⟩

/-- A full-length V1 license string whose hash (64 ones) does not match the
constant digest of `envZ` (64 zeros) for any device. -/
def licV1Bad : Str :=
  str "20200101-1111111111111111111111111111111111111111111111111111111111111111"

/-- A `part_001` Postgres database holding a valid V1 license for `devA`
under `envZ`, owned by `userA`. -/
def pgA : PgDB :=
  { licenses := Map.empty.set
      (str "20990101-0000000000000000000000000000000000000000000000000000000000000000")
      ⟨str "userA", some (str "devA"), str "20990101", str "tc"⟩
    users := Map.empty.set (str "userA") ⟨str "Alice", none, str "tc"⟩
    revokedDevices := fun _ => false
    revokedUsers := fun _ => false
    progress := Map.empty }

/-- Observation used by the invariant claims: the stored `perfectCount` of
the progress record at `(userId, testId)` — `0` when the bucket or record
is absent, matching how both GetProgress and MarkPerfect read it
(`bucket[tid] || { perfectCount: 0 }`). -/
def countOf (db : DB) (u tid : Str) : Int :=
  ((((db.progress u).getD Map.empty) tid).getD ⟨0, [], []⟩).perfectCount

/-- Request-body arguments of one MarkPerfect call, for stating properties
of call sequences. -/
structure MarkCall where
  deviceId : Str
  license : Str
  testId : Str
  attemptId : Str
  today : Str
  now : Str

/-- Iterated application of MarkPerfect: the persisted state after a
sequence of calls. -/
def runMarks (env : Env) (db : DB) (calls : List MarkCall) : DB :=
  calls.foldl
    (fun d c =>
      (markPerfect env d c.deviceId c.license c.testId c.attemptId
        c.today c.now).2)
    db

/-! Helper lemmas about the map model and the user-record helpers. -/

theorem Map.get_set {α : Type} (m : Map α) (k k' : Str) (v : α) :
    m.set k v k' = if k' = k then some v else m k' := rfl

theorem Map.get_set_self {α : Type} (m : Map α) (k : Str) (v : α) :
    m.set k v k = some v := by simp [Map.set]

theorem Map.get_set_ne {α : Type} (m : Map α) {k k' : Str} (v : α)
    (h : k' ≠ k) : m.set k v k' = m k' := by simp [Map.set, h]

theorem Map.set_eq_self {α : Type} {m : Map α} {k : Str} {v : α}
    (h : m k = some v) : m.set k v = m := by
  funext k'
  by_cases hk : k' = k
  · subst hk; simp [Map.set, h.symm]
  · simp [Map.set, hk]

theorem Map.del_set {α : Type} {m : Map α} {k : Str} (v : α)
    (h : m k = none) : (m.set k v).del k = m := by
  funext k'
  by_cases hk : k' = k
  · subst hk; simp [Map.del, h.symm]
  · simp [Map.del, Map.set, hk]

theorem ensureUserRecord_licenses (db : DB) (u n e t : Str) :
    (ensureUserRecord db u n e t).licenses = db.licenses := by
  simp only [ensureUserRecord]

theorem ensureUserRecord_revokedDevices (db : DB) (u n e t : Str) :
    (ensureUserRecord db u n e t).revokedDevices = db.revokedDevices := by
  simp only [ensureUserRecord]

theorem ensureUserRecord_revokedUsers (db : DB) (u n e t : Str) :
    (ensureUserRecord db u n e t).revokedUsers = db.revokedUsers := by
  simp only [ensureUserRecord]

theorem ensureUserRecord_progress (db : DB) (u n e t : Str) :
    (ensureUserRecord db u n e t).progress = db.progress := by
  simp only [ensureUserRecord]

theorem attachDeviceToUser_licenses (db : DB) (u d t : Str) :
    (attachDeviceToUser db u d t).licenses = db.licenses := by
  simp only [attachDeviceToUser, ensureUserRecord_licenses]

theorem attachDeviceToUser_revokedDevices (db : DB) (u d t : Str) :
    (attachDeviceToUser db u d t).revokedDevices = db.revokedDevices := by
  simp only [attachDeviceToUser, ensureUserRecord_revokedDevices]

theorem attachDeviceToUser_revokedUsers (db : DB) (u d t : Str) :
    (attachDeviceToUser db u d t).revokedUsers = db.revokedUsers := by
  simp only [attachDeviceToUser, ensureUserRecord_revokedUsers]

theorem attachDeviceToUser_progress (db : DB) (u d t : Str) :
    (attachDeviceToUser db u d t).progress = db.progress := by
  simp only [attachDeviceToUser, ensureUserRecord_progress]

theorem ensureUserRecord_users_of_present {db : DB} {u : Str} {ur : UserRec}
    (h : db.users u = some ur) (t : Str) :
    (ensureUserRecord db u [] [] t).users = db.users := by
  simp only [ensureUserRecord, h, Option.getD_some, ne_eq, not_true_eq_false,
    if_false, ite_self]
  exact Map.set_eq_self h

theorem ensureUserRecord_userDevices_of_present {db : DB} {u : Str}
    {ud : UserDevices} (h : db.userDevices u = some ud) (n e t : Str) :
    (ensureUserRecord db u n e t).userDevices = db.userDevices := by
  simp only [ensureUserRecord, h]

/-! Claim C2: expiry versus signature precedence in Verify. -/

/-- C2 (counterexample): in the `part_001` variant, a license whose parsed
expiry (`20200101`) is strictly before today (`20260101`) but whose
signature does not match is rejected with `Invalid license format or hash`,
not with the `Expired` error the claim requires. -/
theorem c2_counterexample :
    (verifyP1 envZ pgA (str "devA") licV1Bad (str "20260101")).1
      = .err 400 (str "Invalid license format or hash")
  ∧ (verifyP1 envZ pgA (str "devA") licV1Bad (str "20260101")).1
      ≠ .err 400 (str "Expired")
  ∧ jsLt (str "20200101") (str "20260101") = true
  ∧ splitOnDash licV1Bad
      = [str "20200101",
         str "1111111111111111111111111111111111111111111111111111111111111111"] := by
  refine ⟨by decide, by decide, by decide, by decide⟩

/-- C2 (amended): in `src/server.js`, Verify rejects every parseable
license whose expiry is strictly before today with `Expired`, regardless of
the signature, and leaves the database unchanged; in the `part_001`
variant the signature is validated first, so an expired license is
rejected with `Expired` only when its signature is valid, and with
`Invalid license format or hash` when the signature does not match. -/
theorem c2_amended :
    (∀ (env : Env) (db : DB) (deviceId license today now freshId : Str)
        (p : Parsed), deviceId ≠ [] → license ≠ [] →
        parseLicense license = some p → jsLt p.expiry today = true →
        (verify env db deviceId license today now freshId).1
            = .err 403 (str "Expired")
          ∧ (verify env db deviceId license today now freshId).2 = db)
  ∧ (∀ (env : Env) (db : PgDB) (deviceId license today e h : Str),
        deviceId ≠ [] → license ≠ [] →
        parseAndValidateV1 env license deviceId = some (e, h) →
        jsLt e today = true →
        (verifyP1 env db deviceId license today).1 = .err 400 (str "Expired")
          ∧ (verifyP1 env db deviceId license today).2 = db)
  ∧ (∀ (env : Env) (db : PgDB) (deviceId license today : Str),
        deviceId ≠ [] → license ≠ [] →
        parseAndValidateV1 env license deviceId = none →
        (verifyP1 env db deviceId license today).1
            = .err 400 (str "Invalid license format or hash")
          ∧ (verifyP1 env db deviceId license today).2 = db) := by
  refine ⟨?_, ?_, ?_⟩
  · intro env db deviceId license today now freshId p hd hl hp he
    unfold verify
    rw [hp]
    simp [hd, hl, he]
  · intro env db deviceId license today e h hd hl hp he
    unfold verifyP1
    rw [hp]
    simp [hd, hl, isExpiryValid, he]
  · intro env db deviceId license today hd hl hp
    unfold verifyP1
    rw [hp]
    simp [hd, hl]

/-- C2 (witness for the amended theorem): a concrete expired license under
each of the three conjuncts' hypotheses. -/
theorem c2_amended_witness :
    (verify envZ dbA (str "devA") (str "N1.20200101.000000000000000000000000")
        (str "20260101") (str "t9") (str "f9")).1
      = .err 403 (str "Expired") := by
  exact (c2_amended.1 envZ dbA (str "devA")
    (str "N1.20200101.000000000000000000000000") (str "20260101")
    (str "t9") (str "f9") ⟨str "20200101", str "000000000000000000000000"⟩
    (by decide) (by decide) (by decide) (by decide)).1

/-! Claim C9: legacy-format licenses can never pass the signature check of
`src/server.js`. -/

/-- The expected hash recomputed by Verify has at most 24 characters
(`.slice(0, 24)`). -/
theorem computeLicenseHash_length_le (env : Env) (deviceId expiry : Str) :
    (computeLicenseHash env deviceId expiry).length ≤ 24 := by
  simp only [computeLicenseHash, List.length_take]
  exact min_le_left _ _

/-- C9: a request whose license matches the legacy shape
`\d{8}-[a-f0-9]{64}` is always rejected by `src/server.js` Verify — with
`Expired` when the parsed expiry is before today, otherwise with the
`InvalidSignature` error `Invalid`, because the 24-character recomputed
hash can never equal the 64-character legacy hash — and the database is
left unchanged, so the binding, fallback-creation and success stages are
never reached. -/
theorem c9_legacy_never_verifies
    (env : Env) (db : DB) (deviceId license today now freshId : Str)
    (hd : deviceId ≠ []) (hl : license ≠ [])
    (hleg : isLegacyFormat (jsTrim license) = true) :
    ((verify env db deviceId license today now freshId).1
        = .err 403 (str "Expired")
      ∨ (verify env db deviceId license today now freshId).1
        = .err 403 (str "Invalid"))
  ∧ (verify env db deviceId license today now freshId).2 = db := by
  have hs := hleg
  simp only [isLegacyFormat, Bool.and_eq_true, decide_eq_true_eq] at hs
  obtain ⟨⟨⟨hlen, _⟩, _⟩, _⟩ := hs
  have hhashlen : (toLowerStr ((jsTrim license).drop 9)).length = 64 := by
    simp [toLowerStr, List.length_drop, hlen]
  have hne : computeLicenseHash env deviceId ((jsTrim license).take 8)
      ≠ toLowerStr ((jsTrim license).drop 9) := by
    intro hEq
    have h24 := computeLicenseHash_length_le env deviceId
      ((jsTrim license).take 8)
    rw [hEq, hhashlen] at h24
    omega
  have hp : parseLicense license
      = some ⟨(jsTrim license).take 8, toLowerStr ((jsTrim license).drop 9)⟩ := by
    unfold parseLicense
    simp [hleg]
  unfold verify
  rw [hp]
  by_cases he : jsLt ((jsTrim license).take 8) today = true
  · exact ⟨Or.inl (by simp [hd, hl, he]), by simp [hd, hl, he]⟩
  · refine ⟨Or.inr ?_, ?_⟩
    · simp [hd, hl, he, hne]
    · simp [hd, hl, he, hne]

/-- C9 (witness): a concrete legacy license (`20990101-` followed by 64
zeros) is rejected by Verify on the empty database. -/
theorem c9_legacy_never_verifies_witness :
    ((verify envZ DB.empty (str "devA")
        (str "20990101-0000000000000000000000000000000000000000000000000000000000000000")
        (str "20260101") (str "t9") (str "f9")).1
          = .err 403 (str "Expired")
      ∨ (verify envZ DB.empty (str "devA")
        (str "20990101-0000000000000000000000000000000000000000000000000000000000000000")
        (str "20260101") (str "t9") (str "f9")).1
          = .err 403 (str "Invalid"))
  ∧ (verify envZ DB.empty (str "devA")
        (str "20990101-0000000000000000000000000000000000000000000000000000000000000000")
        (str "20260101") (str "t9") (str "f9")).2 = DB.empty := by
  exact c9_legacy_never_verifies envZ DB.empty (str "devA") _
    (str "20260101") (str "t9") (str "f9") (by decide) (by decide) (by decide)

/-! Character and parsing lemmas for the round-trip claims. -/

theorem splitOnDot_no_dot {xs : Str} (h : '.' ∉ xs) : splitOnDot xs = [xs] := by
  induction xs with
  | nil => rfl
  | cons c cs ih =>
    have hc : ¬ c = '.' := fun hEq => h (hEq ▸ List.mem_cons_self c cs)
    have hcs : '.' ∉ cs := fun hm => h (List.mem_cons_of_mem c hm)
    simp [splitOnDot, hc, ih hcs]

theorem splitOnDot_append {xs ys : Str} (h : '.' ∉ xs) :
    splitOnDot (xs ++ '.' :: ys) = xs :: splitOnDot ys := by
  induction xs with
  | nil => simp [splitOnDot]
  | cons c cs ih =>
    have hc : ¬ c = '.' := fun hEq => h (hEq ▸ List.mem_cons_self c cs)
    have hcs : '.' ∉ cs := fun hm => h (List.mem_cons_of_mem c hm)
    simp [splitOnDot, hc, ih hcs]

theorem jsTrim_eq_self {s : Str} (h : ∀ c ∈ s, c.isWhitespace = false) :
    jsTrim s = s := by
  unfold jsTrim
  have h1 : s.dropWhile Char.isWhitespace = s := by
    rw [List.dropWhile_eq_self_iff]
    intro hl hp
    have h3 := h _ (List.get_mem s 0 hl)
    simp only [List.get_eq_getElem] at h3 hp
    rw [hp] at h3
    exact Bool.true_eq_false.mp h3
  rw [h1]
  have h2 : s.reverse.dropWhile Char.isWhitespace = s.reverse := by
    rw [List.dropWhile_eq_self_iff]
    intro hl hp
    have hm : s.reverse.get ⟨0, hl⟩ ∈ s.reverse := List.get_mem _ _ _
    rw [List.mem_reverse] at hm
    have h3 := h _ hm
    simp only [List.get_eq_getElem] at h3 hp
    rw [hp] at h3
    exact Bool.true_eq_false.mp h3
  rw [h2, List.reverse_reverse]

theorem hexCI_not_ws {c : Char} (h : isHexCI c = true) :
    c.isWhitespace = false := by
  simp only [isHexCI, Bool.or_eq_true, Bool.and_eq_true, decide_eq_true_eq] at h
  have hv : (48 ≤ c.val ∧ c.val ≤ 57) ∨ (97 ≤ c.val ∧ c.val ≤ 102)
      ∨ (65 ≤ c.val ∧ c.val ≤ 70) := by
    rcases h with (h | ⟨h1, h2⟩) | ⟨h1, h2⟩
    · left
      simp [Char.isDigit, Char.le_def, decide_eq_true_eq] at h
      exact ⟨h.1, h.2⟩
    · exact Or.inr (Or.inl ⟨h1, h2⟩)
    · exact Or.inr (Or.inr ⟨h1, h2⟩)
  simp only [Char.isWhitespace]
  simp only [Bool.or_eq_false_iff, decide_eq_false_iff_not]
  refine ⟨⟨⟨?_, ?_⟩, ?_⟩, ?_⟩ <;> intro hc <;> subst hc <;> revert hv <;> decide

theorem hexCI_ne_dot {c : Char} (h : isHexCI c = true) : ¬ c = '.' := by
  intro hEq
  subst hEq
  exact absurd h (by decide)

theorem digit_hexCI {c : Char} (h : c.isDigit = true) : isHexCI c = true := by
  simp [isHexCI, h]

theorem isHex24_computeLicenseHash {env : Env}
    (hlen : ∀ s, (env.sha256Hex s).length = 64)
    (hhex : ∀ s, (env.sha256Hex s).all isHexCI = true)
    (d e : Str) : isHex24 (computeLicenseHash env d e) = true := by
  simp only [isHex24, computeLicenseHash, Bool.and_eq_true, decide_eq_true_eq]
  constructor
  · simp [List.length_take, hlen]
  · rw [List.all_eq_true]
    intro c hc
    exact List.all_eq_true.mp (hhex _) _ (List.take_subset _ _ hc)

/-- A well-formed new-format license parses back into its expiry and hash
components. -/
theorem parseLicense_new_format {e h : Str}
    (he : isDigits8 e = true) (hh : isHex24 h = true) :
    parseLicense (str "N1" ++ str "." ++ e ++ str "." ++ h) = some ⟨e, h⟩ := by
  have he' := he
  have hh' := hh
  simp only [isDigits8, isHex24, Bool.and_eq_true, decide_eq_true_eq,
    List.all_eq_true] at he' hh'
  obtain ⟨helen, hedig⟩ := he'
  obtain ⟨hhlen, hhhex⟩ := hh'
  have hL : str "N1" ++ str "." ++ e ++ str "." ++ h
      = ['N', '1'] ++ '.' :: (e ++ '.' :: h) := by
    simp [str]
  have hnotws : ∀ c ∈ str "N1" ++ str "." ++ e ++ str "." ++ h,
      c.isWhitespace = false := by
    rw [hL]
    intro c hc
    simp only [List.mem_append, List.mem_cons] at hc
    rcases hc with h1 | h1 | h1
    · rcases h1 with h1 | h1 | h1 <;> first | (subst h1; decide) | cases h1
    · subst h1; decide
    · rcases h1 with h1 | h1 | h1
      · exact hexCI_not_ws (digit_hexCI (hedig c h1))
      · subst h1; decide
      · exact hexCI_not_ws (hhhex c h1)
  have hedot : '.' ∉ e := fun hm => hexCI_ne_dot (digit_hexCI (hedig _ hm)) rfl
  have hhdot : '.' ∉ h := fun hm => hexCI_ne_dot (hhhex _ hm) rfl
  have hlen36 : (str "N1" ++ str "." ++ e ++ str "." ++ h).length = 36 := by
    simp [str, helen, hhlen]
  unfold parseLicense
  rw [jsTrim_eq_self hnotws]
  have hlegf : isLegacyFormat (str "N1" ++ str "." ++ e ++ str "." ++ h) = false := by
    apply Bool.eq_false_iff.mpr
    intro htrue
    simp only [isLegacyFormat, Bool.and_eq_true, decide_eq_true_eq] at htrue
    obtain ⟨⟨⟨hl73, -⟩, -⟩, -⟩ := htrue
    rw [hlen36] at hl73
    exact absurd hl73 (by decide)
  rw [hlegf]
  simp only [Bool.false_eq_true, if_false]
  rw [hL, splitOnDot_append (by decide), splitOnDot_append hedot,
    splitOnDot_no_dot hhdot]
  simp [he, hh]
  decide

/-- Verify passes its parse, expiry and signature stages whenever the
license parses, is not expired, and carries the hash recomputed for the
requesting device. -/
theorem verify_reaches_record_stage (env : Env) (db : DB)
    (d L today now fid : Str) (p : Parsed)
    (hd : d ≠ []) (hl : L ≠ [])
    (hp : parseLicense L = some p)
    (he : jsLt p.expiry today = false)
    (hh : computeLicenseHash env d p.expiry = p.hash) :
    (verify env db d L today now fid).1 ≠ .err 400 (str "Bad license format")
  ∧ (verify env db d L today now fid).1 ≠ .err 403 (str "Expired")
  ∧ (verify env db d L today now fid).1 ≠ .err 403 (str "Invalid") := by
  unfold verify
  rw [hp]
  by_cases hdr : isDeviceRevoked db d
  · simp [hd, hl, he, hh, hdr]
    decide
  · simp only [hd, hl, he, hh]
    cases hrec : db.licenses L with
    | none =>
      simp [hdr]
    | some lrec =>
      simp only [hdr]
      refine ⟨?_, ?_, ?_⟩ <;> (repeat' split) <;> simp_all <;> decide

/-! Claim C3: AdminGenerate / Verify round-trip. -/

/-- C3: for any device and 8-digit expiry not before today, AdminGenerate
issues the license `N1.<expiry>.<hash>` with
`hash = computeLicenseHash(deviceId, expiry)`, that license parses back
into those components, and Verify of the same deviceId against any
database never fails with `Bad license format`, `Expired` or `Invalid` —
it reaches the persisted-record stage.  The digest hypotheses state that
the abstract SHA-256 returns 64 hex characters, as the real one does. -/
theorem c3_generate_verify_roundtrip
    (env : Env) (db : DB) (headerKey : Option Str)
    (k deviceId expiry userName examDate userId now freshId today : Str)
    (hlen : ∀ s, (env.sha256Hex s).length = 64)
    (hhex : ∀ s, (env.sha256Hex s).all isHexCI = true)
    (hak : env.adminKey = some k) (hkey : headerKey = some k)
    (hd : deviceId ≠ []) (hu : userName ≠ [])
    (he8 : isDigits8 expiry = true)
    (hexp : jsLt expiry today = false) :
    (adminGenerate env db headerKey deviceId expiry userName examDate
        userId now freshId).1
      = .ok (str "N1" ++ str "." ++ expiry ++ str "."
              ++ computeLicenseHash env deviceId expiry)
          expiry
          (if normalizeUserId userId = [] then freshId
           else normalizeUserId userId)
          (jsTrim userName) (jsTrim examDate)
  ∧ parseLicense (str "N1" ++ str "." ++ expiry ++ str "."
        ++ computeLicenseHash env deviceId expiry)
      = some ⟨expiry, computeLicenseHash env deviceId expiry⟩
  ∧ ∀ (db' : DB) (nowV fidV : Str),
      (verify env db' deviceId
          (str "N1" ++ str "." ++ expiry ++ str "."
            ++ computeLicenseHash env deviceId expiry)
          today nowV fidV).1 ≠ .err 400 (str "Bad license format")
    ∧ (verify env db' deviceId
          (str "N1" ++ str "." ++ expiry ++ str "."
            ++ computeLicenseHash env deviceId expiry)
          today nowV fidV).1 ≠ .err 403 (str "Expired")
    ∧ (verify env db' deviceId
          (str "N1" ++ str "." ++ expiry ++ str "."
            ++ computeLicenseHash env deviceId expiry)
          today nowV fidV).1 ≠ .err 403 (str "Invalid") := by
  have hexne : expiry ≠ [] := by
    intro hEq
    rw [hEq] at he8
    exact absurd he8 (by decide)
  have hparse := parseLicense_new_format he8
    (isHex24_computeLicenseHash hlen hhex deviceId expiry)
  refine ⟨?_, hparse, ?_⟩
  · unfold adminGenerate
    rw [hak]
    simp [hkey, hd, hu, hexne, he8]
  · intro db' nowV fidV
    refine verify_reaches_record_stage env db' deviceId _ today nowV fidV
      ⟨expiry, computeLicenseHash env deviceId expiry⟩ hd ?_ hparse hexp rfl
    simp [str]

/-- C3 (witness): concrete round-trip for device `devA`, expiry
`20990101`, under the constant well-formed digest. -/
theorem c3_generate_verify_roundtrip_witness :
    (adminGenerate envZ DB.empty (some (str "adminkey")) (str "devA")
        (str "20990101") (str "Alice") [] [] (str "tc") (str "fresh1")).1
      = .ok (str "N1" ++ str "." ++ str "20990101" ++ str "."
              ++ computeLicenseHash envZ (str "devA") (str "20990101"))
          (str "20990101") (str "fresh1") (str "Alice") [] := by
  exact (c3_generate_verify_roundtrip envZ DB.empty (some (str "adminkey"))
    (str "adminkey") (str "devA") (str "20990101") (str "Alice") [] []
    (str "tc") (str "fresh1") (str "20260101")
    (fun _ => rfl)
    (fun _ => show (str "0000000000000000000000000000000000000000000000000000000000000000").all isHexCI = true by decide)
    rfl rfl (by decide) (by decide) (by decide) (by decide)).1

/-! Claim C1: the bind/rebind sequence of Verify. -/

/-- C1 (counterexample): under a digest distinguishing the two devices (as
SHA-256 does), the first two Verify calls on a fallback-created license
behave as claimed, but the third call with a different device fails with
the `InvalidSignature` error `Invalid` — not with
`License already bound to another device` — because the hash recomputed
for `devB` differs before the binding check is ever reached.  Moreover a
freshly admin-generated license is pre-bound, so its first Verify call
returns `firstBind = false`, not `true`. -/
theorem c1_counterexample :
    (verify envAB DB.empty (str "devA") licA (str "20260101")
        (str "t1") (str "fresh1")).1
      = .ok (str "fresh1") (str "20990101") (str "User") [] true true
  ∧ (verify envAB
        (verify envAB DB.empty (str "devA") licA (str "20260101")
          (str "t1") (str "fresh1")).2
        (str "devA") licA (str "20260101") (str "t2") (str "fresh2")).1
      = .ok (str "fresh1") (str "20990101") (str "User") [] true false
  ∧ (verify envAB
        (verify envAB
          (verify envAB DB.empty (str "devA") licA (str "20260101")
            (str "t1") (str "fresh1")).2
          (str "devA") licA (str "20260101") (str "t2") (str "fresh2")).2
        (str "devB") licA (str "20260101") (str "t3") (str "fresh3")).1
      = .err 403 (str "Invalid")
  ∧ (verify envAB
        (verify envAB
          (verify envAB DB.empty (str "devA") licA (str "20260101")
            (str "t1") (str "fresh1")).2
          (str "devA") licA (str "20260101") (str "t2") (str "fresh2")).2
        (str "devB") licA (str "20260101") (str "t3") (str "fresh3")).1
      ≠ .err 403 (str "License already bound to another device")
  ∧ (verify envAB
        (adminGenerate envAB dbA (some (str "adminkey")) (str "devC")
          (str "20990101") (str "Carol") [] [] (str "tg") (str "freshC")).2
        (str "devC")
        (str "N1" ++ str "." ++ str "20990101" ++ str "."
          ++ computeLicenseHash envAB (str "devC") (str "20990101"))
        (str "20260101") (str "t4") (str "fresh4")).1
      = .ok (str "freshC") (str "20990101") (str "Carol") [] true false := by
  refine ⟨by decide, by decide, by decide, by decide, by decide⟩

/-- C1 (amended): for a fallback-created license (absent from the
database), the first Verify call creates and binds it, returning
`firstBind = true`, and a second call with the same device succeeds with
`firstBind = false`; a third call with a different device whose recomputed
hash differs from the license hash fails with the `InvalidSignature` error
`Invalid` at the signature stage (the `DeviceMismatch` branch is reachable
only if the two devices' hashes collide); and a freshly admin-generated
license is stored pre-bound to its device, so no Verify call on it ever
returns `firstBind = true`. -/
theorem c1_amended :
    (∀ (env : Env) (db : DB) (d1 L today n1 f1 : Str) (p : Parsed),
      d1 ≠ [] → L ≠ [] → parseLicense L = some p →
      jsLt p.expiry today = false →
      computeLicenseHash env d1 p.expiry = p.hash →
      db.licenses L = none →
      isDeviceRevoked db d1 = false →
      isUserRevoked db f1 = false → f1 ≠ [] →
      (verify env db d1 L today n1 f1).1
          = .ok f1 p.expiry (str "User") [] true true
        ∧ ∀ n2 f2,
          (verify env (verify env db d1 L today n1 f1).2 d1 L today n2 f2).1
            = .ok f1 p.expiry (str "User") [] true false)
  ∧ (∀ (env : Env) (db : DB) (d2 L today n3 f3 : Str) (p : Parsed),
      d2 ≠ [] → L ≠ [] → parseLicense L = some p →
      jsLt p.expiry today = false →
      computeLicenseHash env d2 p.expiry ≠ p.hash →
      (verify env db d2 L today n3 f3).1 = .err 403 (str "Invalid"))
  ∧ (∀ (env : Env) (db : DB) (headerKey : Option Str)
        (k deviceId expiry userName examDate userId now freshId today : Str),
      env.adminKey = some k → headerKey = some k →
      deviceId ≠ [] → userName ≠ [] → isDigits8 expiry = true →
      ∀ (nowV fidV u e nm xd : Str) (b : Bool),
        (verify env
          (adminGenerate env db headerKey deviceId expiry userName examDate
            userId now freshId).2
          deviceId
          (str "N1" ++ str "." ++ expiry ++ str "."
            ++ computeLicenseHash env deviceId expiry)
          today nowV fidV).1 ≠ .ok u e nm xd b true) := by
  refine ⟨?_, ?_, ?_⟩
  · intro env db d1 L today n1 f1 p hd1 hl hp he hh hrec hdr hur hf1
    have hstate : (verify env db d1 L today n1 f1).2
        = attachDeviceToUser
            (ensureUserRecord
              { db with licenses := (db.licenses.set L
                  ⟨d1, p.expiry, f1, str "User", [], [], n1⟩) }
              f1 (str "User") [] n1)
            f1 d1 n1 := by
      unfold verify
      rw [hp]
      simp [hd1, hl, he, hh, hdr, hrec]
    constructor
    · unfold verify
      rw [hp]
      simp [hd1, hl, he, hh, hdr, hrec]
    · intro n2 f2
      rw [hstate]
      set S := attachDeviceToUser
          (ensureUserRecord
            { db with licenses := (db.licenses.set L
                ⟨d1, p.expiry, f1, str "User", [], [], n1⟩) }
            f1 (str "User") [] n1)
          f1 d1 n1 with hS
      have hlic : S.licenses L = some ⟨d1, p.expiry, f1, str "User", [], [], n1⟩ := by
        rw [hS, attachDeviceToUser_licenses, ensureUserRecord_licenses]
        exact Map.get_set_self _ _ _
      have hdr2 : isDeviceRevoked S d1 = false := by
        unfold isDeviceRevoked
        rw [hS, attachDeviceToUser_revokedDevices,
          ensureUserRecord_revokedDevices]
        exact hdr
      have hur2 : isUserRevoked S f1 = false := by
        unfold isUserRevoked
        rw [hS, attachDeviceToUser_revokedUsers, ensureUserRecord_revokedUsers]
        exact hur
      unfold verify
      rw [hp]
      simp only [hd1, hl, he, hh, hdr2, hlic]
      simp [hur2, hf1]
  · intro env db d2 L today n3 f3 p hd2 hl hp he hh3
    unfold verify
    rw [hp]
    simp [hd2, hl, he, hh3]
  · intro env db headerKey k deviceId expiry userName examDate userId now
      freshId today hak hkey hd hu he8
    have hexne : expiry ≠ [] := by
      intro hEq
      rw [hEq] at he8
      exact absurd he8 (by decide)
    have hgl : (adminGenerate env db headerKey deviceId expiry userName
          examDate userId now freshId).2.licenses
          (str "N1" ++ str "." ++ expiry ++ str "."
            ++ computeLicenseHash env deviceId expiry)
        = some ⟨deviceId, expiry,
            (if normalizeUserId userId = [] then freshId
             else normalizeUserId userId),
            jsTrim userName, jsTrim examDate, now, []⟩ := by
      unfold adminGenerate
      rw [hak]
      simp [hkey, hd, hu, hexne, he8, attachDeviceToUser_licenses,
        ensureUserRecord_licenses]
      exact Map.get_set_self _ _ _
    intro nowV fidV u e nm xd b
    unfold verify
    cases hp' : parseLicense (str "N1" ++ str "." ++ expiry ++ str "."
        ++ computeLicenseHash env deviceId expiry) with
    | none => split <;> simp
    | some p' =>
      rw [hgl]
      repeat' split
      all_goals try simp_all
      all_goals (repeat' split) <;> simp_all

/-- C1 (witness for the amended theorem): the fallback scenario at a
concrete instance. -/
theorem c1_amended_witness :
    (verify envAB DB.empty (str "devA") licA (str "20260101")
        (str "t1") (str "fresh1")).1
      = .ok (str "fresh1") (str "20990101") (str "User") [] true true := by
  exact (c1_amended.1 envAB DB.empty (str "devA") licA (str "20260101")
    (str "t1") (str "fresh1") ⟨str "20990101", str "000000000000000000000000"⟩
    (by decide) (by decide) (by decide) (by decide) (by decide) rfl rfl rfl
    (by decide)).1

/-! Machinery for the MarkPerfect claims. -/

theorem Map.set_set {α : Type} (m : Map α) (k : Str) (v w : α) :
    (m.set k v).set k w = m.set k w := by
  funext k'
  by_cases hk : k' = k <;> simp [Map.set, hk]

theorem clampInt_of_bounds {n : Int} (h0 : 0 ≤ n) (h3 : n ≤ 3) :
    clampInt n 0 3 = n := by
  unfold clampInt
  omega

theorem contains_pushShift (l : List Str) (a : Str) :
    ((if 20 < (l ++ [a]).length then (l ++ [a]).drop 1 else l ++ [a]).contains a)
      = true := by
  by_cases h : 20 < (l ++ [a]).length
  · simp only [h, if_true]
    cases l with
    | nil => simp at h
    | cons x xs =>
      have hdrop : ((x :: xs) ++ [a]).drop 1 = xs ++ [a] := by simp
      rw [hdrop]
      exact List.elem_eq_true_of_mem (List.mem_append_right _ (List.mem_singleton.mpr rfl))
  · simp only [h, if_false]
    exact List.elem_eq_true_of_mem (List.mem_append_right _ (List.mem_singleton.mpr rfl))

theorem markPerfectUpdate_licenses (db : DB) (u tid aId now : Str) :
    (markPerfectUpdate db u tid aId now).2.licenses = db.licenses := by
  simp only [markPerfectUpdate]
  split <;> rfl

theorem markPerfectUpdate_revokedDevices (db : DB) (u tid aId now : Str) :
    (markPerfectUpdate db u tid aId now).2.revokedDevices = db.revokedDevices := by
  simp only [markPerfectUpdate]
  split <;> rfl

theorem markPerfectUpdate_revokedUsers (db : DB) (u tid aId now : Str) :
    (markPerfectUpdate db u tid aId now).2.revokedUsers = db.revokedUsers := by
  simp only [markPerfectUpdate]
  split <;> rfl

theorem markPerfect_auth_pass
    (env : Env) (db : DB) (deviceId license testId attemptId today now : Str)
    (p : Parsed) (lrec : LicenseRec)
    (hd : deviceId ≠ []) (hl : license ≠ []) (ht : testId ≠ [])
    (hp : parseLicense license = some p)
    (he : jsLt p.expiry today = false)
    (hh : computeLicenseHash env deviceId p.expiry = p.hash)
    (hrec : db.licenses license = some lrec)
    (hbind : lrec.deviceId = deviceId)
    (huid : lrec.userId ≠ [])
    (hdr : isDeviceRevoked db deviceId = false)
    (hur : isUserRevoked db lrec.userId = false)
    (htid : jsTrim testId ≠ []) :
    markPerfect env db deviceId license testId attemptId today now
      = markPerfectUpdate (attachDeviceToUser db lrec.userId deviceId now)
          lrec.userId (jsTrim testId) (jsTrim attemptId) now := by
  unfold markPerfect
  rw [hp, hrec]
  simp [hd, hl, ht, he, hh, hbind, huid, hdr, hur, htid]

theorem markPerfectUpdate_spec_notdup (db : DB) (u tid aId now : Str)
    (bucket : Map ProgressRec) (pRec : ProgressRec)
    (hb : (db.progress u).getD Map.empty = bucket)
    (hr : (bucket tid).getD ⟨0, [], []⟩ = pRec)
    (hdup : (decide (aId ≠ []) && pRec.recentAttempts.contains aId) = false) :
    markPerfectUpdate db u tid aId now
      = (.ok false (clampInt (pRec.perfectCount + 1) 0 3)
          (calcPercentFromPerfectCount (clampInt (pRec.perfectCount + 1) 0 3))
          (decide (3 ≤ clampInt (pRec.perfectCount + 1) 0 3)),
        { db with progress := (db.progress.set u (bucket.set tid
            ⟨clampInt (pRec.perfectCount + 1) 0 3, now,
             if aId = [] then pRec.recentAttempts
             else
               if 20 < (pRec.recentAttempts ++ [aId]).length then
                 (pRec.recentAttempts ++ [aId]).drop 1
               else pRec.recentAttempts ++ [aId]⟩)) }) := by
  simp only [markPerfectUpdate, hb, hr, hdup]
  simp

theorem markPerfectUpdate_spec_dup (db : DB) (u tid aId now : Str)
    (bucket : Map ProgressRec) (pRec : ProgressRec)
    (hb : (db.progress u).getD Map.empty = bucket)
    (hr : (bucket tid).getD ⟨0, [], []⟩ = pRec)
    (hdup : (decide (aId ≠ []) && pRec.recentAttempts.contains aId) = true) :
    markPerfectUpdate db u tid aId now
      = (.ok true (clampInt pRec.perfectCount 0 3)
          (calcPercentFromPerfectCount (clampInt pRec.perfectCount 0 3))
          (decide (3 ≤ clampInt pRec.perfectCount 0 3)),
        { db with progress := (db.progress.set u (bucket.set tid pRec)) }) := by
  simp only [markPerfectUpdate, hb, hr, hdup]
  simp

theorem bucket_get_of_dup {bucket : Map ProgressRec} {tid aId : Str}
    {pRec : ProgressRec}
    (hr : (bucket tid).getD ⟨0, [], []⟩ = pRec)
    (hdup : (decide (aId ≠ []) && pRec.recentAttempts.contains aId) = true) :
    bucket tid = some pRec := by
  cases hbt : bucket tid with
  | some r => rw [hbt] at hr; simpa using hr ▸ rfl
  | none =>
    rw [hbt] at hr
    simp at hr
    rw [← hr] at hdup
    simp at hdup

/-! Claim C4: idempotence of a duplicated MarkPerfect call. -/

/-- C4 (counterexample): from a saturated progress record
(`perfectCount = 3`) and a fresh non-empty attemptId, the first MarkPerfect
call does not increment the counter by one: it returns and stores 3
(`clampInt(3+1) = 3`), refuting the claim's "the first call increments
perfectCount by one" at this input. -/
theorem c4_counterexample :
    ((dbSat.progress (str "userA")).getD Map.empty (str "math1")).map
        (fun r => r.perfectCount) = some 3
  ∧ (markPerfect envZ dbSat (str "devA") licA (str "math1") (str "a1")
        (str "20260101") (str "t2")).1 = .ok false 3 100 true
  ∧ (((markPerfect envZ dbSat (str "devA") licA (str "math1") (str "a1")
        (str "20260101") (str "t2")).2.progress (str "userA")).getD Map.empty
        (str "math1")).map (fun r => r.perfectCount) = some 3
  ∧ ¬ ((3 : Int) = 3 + 1) := by
  refine ⟨by decide, by decide, by decide, by decide⟩

/-- C4 (amended): provided the attemptId is non-empty, not already in the
record's `recentAttempts`, and the record's `perfectCount` is below the
saturation cap 3, the first MarkPerfect call increments the counter by
exactly one; the second call with the identical attemptId returns
`deduped = true` with the same counter value and leaves the entire
progress store — hence `perfectCount`, `recentAttempts` and `updatedAt` of
the record — unchanged. -/
theorem c4_amended
    (env : Env) (db : DB)
    (deviceId license testId attemptId today now1 now2 : Str)
    (p : Parsed) (lrec : LicenseRec) (bucket : Map ProgressRec)
    (pRec : ProgressRec)
    (hd : deviceId ≠ []) (hl : license ≠ []) (ht : testId ≠ [])
    (hp : parseLicense license = some p)
    (he : jsLt p.expiry today = false)
    (hh : computeLicenseHash env deviceId p.expiry = p.hash)
    (hrec : db.licenses license = some lrec)
    (hbind : lrec.deviceId = deviceId)
    (huid : lrec.userId ≠ [])
    (hdr : isDeviceRevoked db deviceId = false)
    (hur : isUserRevoked db lrec.userId = false)
    (htid : jsTrim testId ≠ [])
    (haid : jsTrim attemptId ≠ [])
    (hb : (db.progress lrec.userId).getD Map.empty = bucket)
    (hr : (bucket (jsTrim testId)).getD ⟨0, [], []⟩ = pRec)
    (hfresh : pRec.recentAttempts.contains (jsTrim attemptId) = false)
    (hc0 : 0 ≤ pRec.perfectCount) (hc3 : pRec.perfectCount < 3) :
    (markPerfect env db deviceId license testId attemptId today now1).1
        = .ok false (pRec.perfectCount + 1)
            (calcPercentFromPerfectCount (pRec.perfectCount + 1))
            (decide (3 ≤ pRec.perfectCount + 1))
  ∧ (markPerfect env
        (markPerfect env db deviceId license testId attemptId today now1).2
        deviceId license testId attemptId today now2).1
        = .ok true (pRec.perfectCount + 1)
            (calcPercentFromPerfectCount (pRec.perfectCount + 1))
            (decide (3 ≤ pRec.perfectCount + 1))
  ∧ (markPerfect env
        (markPerfect env db deviceId license testId attemptId today now1).2
        deviceId license testId attemptId today now2).2.progress
        = (markPerfect env db deviceId license testId attemptId today now1).2.progress := by
  have hclamp : clampInt (pRec.perfectCount + 1) 0 3 = pRec.perfectCount + 1 :=
    clampInt_of_bounds (by omega) (by omega)
  have hdup1 : (decide (jsTrim attemptId ≠ [])
      && pRec.recentAttempts.contains (jsTrim attemptId)) = false := by
    rw [hfresh, Bool.and_false]
  have h1 := markPerfect_auth_pass env db deviceId license testId attemptId
    today now1 p lrec hd hl ht hp he hh hrec hbind huid hdr hur htid
  have hb1 : ((attachDeviceToUser db lrec.userId deviceId now1).progress
      lrec.userId).getD Map.empty = bucket := by
    rw [attachDeviceToUser_progress]; exact hb
  have hspec1 := markPerfectUpdate_spec_notdup
    (attachDeviceToUser db lrec.userId deviceId now1) lrec.userId
    (jsTrim testId) (jsTrim attemptId) now1 bucket pRec hb1 hr hdup1
  rw [hclamp] at hspec1
  rw [h1, hspec1]
  -- name the post-first-call record and state
  set recent1 : List Str := if jsTrim attemptId = [] then pRec.recentAttempts
    else
      if 20 < (pRec.recentAttempts ++ [jsTrim attemptId]).length then
        (pRec.recentAttempts ++ [jsTrim attemptId]).drop 1
      else pRec.recentAttempts ++ [jsTrim attemptId] with hrecent1
  set pRec1 : ProgressRec := ⟨pRec.perfectCount + 1, now1, recent1⟩ with hpRec1
  set S1 : DB := { attachDeviceToUser db lrec.userId deviceId now1 with
    progress := ((attachDeviceToUser db lrec.userId deviceId now1).progress.set
      lrec.userId (bucket.set (jsTrim testId) pRec1)) } with hS1
  -- facts about S1 for the second call
  have hlic1 : S1.licenses license = some lrec := by
    rw [hS1]
    show (attachDeviceToUser db lrec.userId deviceId now1).licenses license
      = some lrec
    rw [attachDeviceToUser_licenses]; exact hrec
  have hdr1 : isDeviceRevoked S1 deviceId = false := by
    unfold isDeviceRevoked
    rw [hS1]
    show ((attachDeviceToUser db lrec.userId deviceId now1).revokedDevices
      deviceId).isSome = false
    rw [attachDeviceToUser_revokedDevices]; exact hdr
  have hur1 : isUserRevoked S1 lrec.userId = false := by
    unfold isUserRevoked
    rw [hS1]
    show ((attachDeviceToUser db lrec.userId deviceId now1).revokedUsers
      lrec.userId).isSome = false
    rw [attachDeviceToUser_revokedUsers]; exact hur
  have h2 := markPerfect_auth_pass env S1 deviceId license testId attemptId
    today now2 p lrec hd hl ht hp he hh hlic1 hbind huid hdr1 hur1 htid
  have hb2 : ((attachDeviceToUser S1 lrec.userId deviceId now2).progress
      lrec.userId).getD Map.empty = bucket.set (jsTrim testId) pRec1 := by
    rw [attachDeviceToUser_progress, hS1]
    simp [Map.get_set_self]
  have hr2 : ((bucket.set (jsTrim testId) pRec1) (jsTrim testId)).getD
      ⟨0, [], []⟩ = pRec1 := by
    rw [Map.get_set_self]
    rfl
  have hcont : pRec1.recentAttempts.contains (jsTrim attemptId) = true := by
    rw [hpRec1]
    show recent1.contains (jsTrim attemptId) = true
    rw [hrecent1]
    simp only [haid, if_false]
    exact contains_pushShift _ _
  have hdup2 : (decide (jsTrim attemptId ≠ [])
      && pRec1.recentAttempts.contains (jsTrim attemptId)) = true := by
    rw [hcont, Bool.and_true]
    exact decide_eq_true haid
  have hspec2 := markPerfectUpdate_spec_dup
    (attachDeviceToUser S1 lrec.userId deviceId now2) lrec.userId
    (jsTrim testId) (jsTrim attemptId) now2 (bucket.set (jsTrim testId) pRec1)
    pRec1 hb2 hr2 hdup2
  have hclamp1 : clampInt pRec1.perfectCount 0 3 = pRec.perfectCount + 1 := by
    rw [hpRec1]
    show clampInt (pRec.perfectCount + 1) 0 3 = pRec.perfectCount + 1
    exact hclamp
  refine ⟨rfl, ?_, ?_⟩
  · rw [h2, hspec2, hclamp1]
  · rw [h2, hspec2]
    show ((attachDeviceToUser S1 lrec.userId deviceId now2).progress.set
        lrec.userId ((bucket.set (jsTrim testId) pRec1).set (jsTrim testId) pRec1))
      = S1.progress
    rw [Map.set_set, attachDeviceToUser_progress, hS1]
    show (((attachDeviceToUser db lrec.userId deviceId now1).progress.set
        lrec.userId (bucket.set (jsTrim testId) pRec1)).set lrec.userId
        (bucket.set (jsTrim testId) pRec1))
      = ((attachDeviceToUser db lrec.userId deviceId now1).progress.set
        lrec.userId (bucket.set (jsTrim testId) pRec1))
    rw [Map.set_set]

/-- C4 (witness): concrete duplicate pair on a record with count 2 and a
fresh attempt `a9`. -/
theorem c4_amended_witness :
    (markPerfect envZ dbDup (str "devA") licA (str "math1") (str "a9")
        (str "20260101") (str "t2")).1 = .ok false 3 100 true := by
  exact (c4_amended envZ dbDup (str "devA") licA (str "math1") (str "a9")
    (str "20260101") (str "t2") (str "t3")
    ⟨str "20990101", str "000000000000000000000000"⟩
    ⟨str "devA", str "20990101", str "userA", str "Alice", [], str "tc", []⟩
    (Map.empty.set (str "math1") ⟨2, str "t1", [str "a1"]⟩)
    ⟨2, str "t1", [str "a1"]⟩
    (by decide) (by decide) (by decide) (by decide) (by decide) (by decide)
    rfl (by decide) (by decide) rfl rfl (by decide) (by decide)
    rfl rfl (by decide) (by decide) (by decide)).1

/-! Claim C10: frame effect of a deduped MarkPerfect call. -/


theorem attachDeviceToUser_userDevices_of_present {db : DB} {u : Str}
    {ud : UserDevices} (hud : db.userDevices u = some ud) (d now : Str) :
    (attachDeviceToUser db u d now).userDevices
      = db.userDevices.set u
          ⟨fun x => if x = d then true else ud.devices x, now⟩ := by
  simp only [attachDeviceToUser, ensureUserRecord_userDevices_of_present hud,
    hud, Option.getD_some]

theorem progress_some_of_dup {db : DB} {u : Str} {bucket : Map ProgressRec}
    {tid : Str} {pRec : ProgressRec}
    (hb : (db.progress u).getD Map.empty = bucket)
    (hbt : bucket tid = some pRec) :
    db.progress u = some bucket := by
  cases hpu : db.progress u with
  | some b =>
    rw [hpu] at hb
    simp at hb
    rw [hb]
  | none =>
    rw [hpu] at hb
    simp at hb
    rw [← hb] at hbt
    exact absurd hbt (by simp [Map.empty])

/-- C10: a deduped MarkPerfect call (attemptId already recorded) leaves
the entire `__progress` store unchanged, yet is not a complete no-op on
the persisted state: the returned (persisted) database has the caller's
device added to `__userDevices[userId].devices` and `lastSeenAt` stamped
to `now`, so whenever the previous `lastSeenAt` differs from `now` the
persisted state has changed.  (In this model the state component returned
by a handler is exactly what `saveDB` persisted.) -/
theorem c10_dedup_frame
    (env : Env) (db : DB)
    (deviceId license testId attemptId today now : Str)
    (p : Parsed) (lrec : LicenseRec) (bucket : Map ProgressRec)
    (pRec : ProgressRec) (ud : UserDevices)
    (hd : deviceId ≠ []) (hl : license ≠ []) (ht : testId ≠ [])
    (hp : parseLicense license = some p)
    (he : jsLt p.expiry today = false)
    (hh : computeLicenseHash env deviceId p.expiry = p.hash)
    (hrec : db.licenses license = some lrec)
    (hbind : lrec.deviceId = deviceId)
    (huid : lrec.userId ≠ [])
    (hdr : isDeviceRevoked db deviceId = false)
    (hur : isUserRevoked db lrec.userId = false)
    (htid : jsTrim testId ≠ [])
    (haid : jsTrim attemptId ≠ [])
    (hb : (db.progress lrec.userId).getD Map.empty = bucket)
    (hr : (bucket (jsTrim testId)).getD ⟨0, [], []⟩ = pRec)
    (hdupIn : pRec.recentAttempts.contains (jsTrim attemptId) = true)
    (hud : db.userDevices lrec.userId = some ud) :
    (markPerfect env db deviceId license testId attemptId today now).1
        = .ok true (clampInt pRec.perfectCount 0 3)
            (calcPercentFromPerfectCount (clampInt pRec.perfectCount 0 3))
            (decide (3 ≤ clampInt pRec.perfectCount 0 3))
  ∧ (markPerfect env db deviceId license testId attemptId today now).2.progress
        = db.progress
  ∧ (markPerfect env db deviceId license testId attemptId today now).2.userDevices
        lrec.userId
        = some ⟨fun x => if x = deviceId then true else ud.devices x, now⟩
  ∧ (markPerfect env db deviceId license testId attemptId today now).2.licenses
        = db.licenses
  ∧ (ud.lastSeenAt ≠ now →
      (markPerfect env db deviceId license testId attemptId today now).2 ≠ db) := by
  have hdup : (decide (jsTrim attemptId ≠ [])
      && pRec.recentAttempts.contains (jsTrim attemptId)) = true := by
    rw [hdupIn, Bool.and_true]
    exact decide_eq_true haid
  have h1 := markPerfect_auth_pass env db deviceId license testId attemptId
    today now p lrec hd hl ht hp he hh hrec hbind huid hdr hur htid
  have hb1 : ((attachDeviceToUser db lrec.userId deviceId now).progress
      lrec.userId).getD Map.empty = bucket := by
    rw [attachDeviceToUser_progress]; exact hb
  have hspec := markPerfectUpdate_spec_dup
    (attachDeviceToUser db lrec.userId deviceId now) lrec.userId
    (jsTrim testId) (jsTrim attemptId) now bucket pRec hb1 hr hdup
  have hbt : bucket (jsTrim testId) = some pRec := bucket_get_of_dup hr hdup
  have hpu : db.progress lrec.userId = some bucket := progress_some_of_dup hb hbt
  have hbset : bucket.set (jsTrim testId) pRec = bucket := Map.set_eq_self hbt
  have hprog : (markPerfect env db deviceId license testId attemptId
      today now).2.progress = db.progress := by
    rw [h1, hspec]
    show ((attachDeviceToUser db lrec.userId deviceId now).progress.set
        lrec.userId (bucket.set (jsTrim testId) pRec)) = db.progress
    rw [hbset, attachDeviceToUser_progress]
    exact Map.set_eq_self hpu
  have hudev : (markPerfect env db deviceId license testId attemptId
      today now).2.userDevices lrec.userId
      = some ⟨fun x => if x = deviceId then true else ud.devices x, now⟩ := by
    rw [h1, hspec]
    show (attachDeviceToUser db lrec.userId deviceId now).userDevices
        lrec.userId = _
    rw [attachDeviceToUser_userDevices_of_present hud]
    exact Map.get_set_self _ _ _
  refine ⟨by rw [h1, hspec], hprog, hudev, ?_, ?_⟩
  · rw [h1, hspec]
    show (attachDeviceToUser db lrec.userId deviceId now).licenses = db.licenses
    exact attachDeviceToUser_licenses db lrec.userId deviceId now
  · intro hne hEq
    rw [hEq] at hudev
    rw [hud] at hudev
    have := congrArg (fun o => (Option.map UserDevices.lastSeenAt o)) hudev
    simp at this
    exact hne this

/-- C10 (witness): deduped call on a record whose `recentAttempts` already
contains `a1`. -/
theorem c10_dedup_frame_witness :
    (markPerfect envZ dbDup (str "devA") licA (str "math1") (str "a1")
        (str "20260101") (str "t2")).1 = .ok true 2 67 false := by
  exact (c10_dedup_frame envZ dbDup (str "devA") licA (str "math1")
    (str "a1") (str "20260101") (str "t2")
    ⟨str "20990101", str "000000000000000000000000"⟩
    ⟨str "devA", str "20990101", str "userA", str "Alice", [], str "tc", []⟩
    (Map.empty.set (str "math1") ⟨2, str "t1", [str "a1"]⟩)
    ⟨2, str "t1", [str "a1"]⟩
    ⟨fun d => d = str "devA", str "t0"⟩
    (by decide) (by decide) (by decide) (by decide) (by decide) (by decide)
    rfl (by decide) (by decide) rfl rfl (by decide) (by decide)
    rfl rfl (by decide) rfl).1

/-! Claim C6: three MarkPerfect calls with distinct attempts. -/

/-- A single authorised, non-deduped MarkPerfect call: response carries the
clamped incremented counter, licenses and revocation sets are untouched,
and the caller's progress bucket gains the updated record with the attempt
appended (no shift while the buffer stays within 20). -/
theorem markPerfect_step
    (env : Env) (db : DB)
    (deviceId license testId attemptId today now : Str)
    (p : Parsed) (lrec : LicenseRec) (B : Map ProgressRec) (pR : ProgressRec)
    (hd : deviceId ≠ []) (hl : license ≠ []) (ht : testId ≠ [])
    (hp : parseLicense license = some p)
    (he : jsLt p.expiry today = false)
    (hh : computeLicenseHash env deviceId p.expiry = p.hash)
    (hrec : db.licenses license = some lrec)
    (hbind : lrec.deviceId = deviceId)
    (huid : lrec.userId ≠ [])
    (hdr : isDeviceRevoked db deviceId = false)
    (hur : isUserRevoked db lrec.userId = false)
    (htid : jsTrim testId ≠ [])
    (haid : jsTrim attemptId ≠ [])
    (hb : (db.progress lrec.userId).getD Map.empty = B)
    (hr : (B (jsTrim testId)).getD ⟨0, [], []⟩ = pR)
    (hfresh : pR.recentAttempts.contains (jsTrim attemptId) = false)
    (hlen : pR.recentAttempts.length + 1 ≤ 20) :
    (markPerfect env db deviceId license testId attemptId today now).1
        = .ok false (clampInt (pR.perfectCount + 1) 0 3)
            (calcPercentFromPerfectCount (clampInt (pR.perfectCount + 1) 0 3))
            (decide (3 ≤ clampInt (pR.perfectCount + 1) 0 3))
  ∧ (markPerfect env db deviceId license testId attemptId today now).2.licenses
        = db.licenses
  ∧ (markPerfect env db deviceId license testId attemptId today now).2.revokedDevices
        = db.revokedDevices
  ∧ (markPerfect env db deviceId license testId attemptId today now).2.revokedUsers
        = db.revokedUsers
  ∧ ((markPerfect env db deviceId license testId attemptId today now).2.progress
        lrec.userId).getD Map.empty
        = B.set (jsTrim testId)
            ⟨clampInt (pR.perfectCount + 1) 0 3, now,
              pR.recentAttempts ++ [jsTrim attemptId]⟩ := by
  have hdup : (decide (jsTrim attemptId ≠ [])
      && pR.recentAttempts.contains (jsTrim attemptId)) = false := by
    rw [hfresh, Bool.and_false]
  have h1 := markPerfect_auth_pass env db deviceId license testId attemptId
    today now p lrec hd hl ht hp he hh hrec hbind huid hdr hur htid
  have hb1 : ((attachDeviceToUser db lrec.userId deviceId now).progress
      lrec.userId).getD Map.empty = B := by
    rw [attachDeviceToUser_progress]; exact hb
  have hspec := markPerfectUpdate_spec_notdup
    (attachDeviceToUser db lrec.userId deviceId now) lrec.userId
    (jsTrim testId) (jsTrim attemptId) now B pR hb1 hr hdup
  have hnot : ¬ 20 < (pR.recentAttempts ++ [jsTrim attemptId]).length := by
    simp only [List.length_append, List.length_singleton]
    omega
  rw [h1, hspec]
  rw [if_neg haid, if_neg hnot]
  refine ⟨rfl, ?_, ?_, ?_, ?_⟩
  · exact attachDeviceToUser_licenses db lrec.userId deviceId now
  · exact attachDeviceToUser_revokedDevices db lrec.userId deviceId now
  · exact attachDeviceToUser_revokedUsers db lrec.userId deviceId now
  · show ((attachDeviceToUser db lrec.userId deviceId now).progress.set
        lrec.userId _ lrec.userId).getD Map.empty = _
    rw [Map.get_set_self]
    rfl

/-- C6: starting from no progress record for (userId, testId), GetProgress
reports perfectCount 0 / percent 0 / completed false, and three MarkPerfect
calls with pairwise-distinct non-empty attemptIds return perfectCount
1, 2, 3, percent 33, 67, 100, with `completed` false, false, true. -/
theorem c6_three_marks
    (env : Env) (db : DB)
    (deviceId license testId attemptId1 attemptId2 attemptId3
      today n0 n1 n2 n3 : Str)
    (p : Parsed) (lrec : LicenseRec)
    (hd : deviceId ≠ []) (hl : license ≠ []) (ht : testId ≠ [])
    (hp : parseLicense license = some p)
    (he : jsLt p.expiry today = false)
    (hh : computeLicenseHash env deviceId p.expiry = p.hash)
    (hrec : db.licenses license = some lrec)
    (hbind : lrec.deviceId = deviceId)
    (huid : lrec.userId ≠ [])
    (hdr : isDeviceRevoked db deviceId = false)
    (hur : isUserRevoked db lrec.userId = false)
    (htid : jsTrim testId ≠ [])
    (ha1 : jsTrim attemptId1 ≠ [])
    (ha2 : jsTrim attemptId2 ≠ [])
    (ha3 : jsTrim attemptId3 ≠ [])
    (h21 : jsTrim attemptId2 ≠ jsTrim attemptId1)
    (h31 : jsTrim attemptId3 ≠ jsTrim attemptId1)
    (h32 : jsTrim attemptId3 ≠ jsTrim attemptId2)
    (hnorec : (db.progress lrec.userId).getD Map.empty (jsTrim testId) = none) :
    (getProgress env db deviceId license [testId] today n0).1
        = .ok lrec.userId (Map.empty.set (jsTrim testId) ⟨0, 0, false, []⟩)
  ∧ (markPerfect env db deviceId license testId attemptId1 today n1).1
        = .ok false 1 33 false
  ∧ (markPerfect env
        (markPerfect env db deviceId license testId attemptId1 today n1).2
        deviceId license testId attemptId2 today n2).1
        = .ok false 2 67 false
  ∧ (markPerfect env
        (markPerfect env
          (markPerfect env db deviceId license testId attemptId1 today n1).2
          deviceId license testId attemptId2 today n2).2
        deviceId license testId attemptId3 today n3).1
        = .ok false 3 100 true := by
  -- step 1
  have hr0 : (((db.progress lrec.userId).getD Map.empty) (jsTrim testId)).getD
      ⟨0, [], []⟩ = (⟨0, [], []⟩ : ProgressRec) := by
    rw [hnorec]
    rfl
  have hs1 := markPerfect_step env db deviceId license testId attemptId1
    today n1 p lrec ((db.progress lrec.userId).getD Map.empty) ⟨0, [], []⟩
    hd hl ht hp he hh hrec hbind huid hdr hur htid ha1 rfl hr0 rfl
    (by simp)
  obtain ⟨hresp1, hlic1, hrd1, hru1, hprog1⟩ := hs1
  -- step 2
  set db1 := (markPerfect env db deviceId license testId attemptId1
    today n1).2 with hdb1
  have hrec2 : db1.licenses license = some lrec := by rw [hlic1]; exact hrec
  have hdr2 : isDeviceRevoked db1 deviceId = false := by
    unfold isDeviceRevoked; rw [hrd1]; exact hdr
  have hur2 : isUserRevoked db1 lrec.userId = false := by
    unfold isUserRevoked; rw [hru1]; exact hur
  have hr1 : ((((db.progress lrec.userId).getD Map.empty).set (jsTrim testId)
        ⟨clampInt (ProgressRec.perfectCount ⟨0, [], []⟩ + 1) 0 3, n1,
          ProgressRec.recentAttempts ⟨0, [], []⟩ ++ [jsTrim attemptId1]⟩)
      (jsTrim testId)).getD ⟨0, [], []⟩
      = (⟨clampInt (ProgressRec.perfectCount ⟨0, [], []⟩ + 1) 0 3, n1,
          ProgressRec.recentAttempts ⟨0, [], []⟩ ++ [jsTrim attemptId1]⟩
        : ProgressRec) := by
    rw [Map.get_set_self]
    rfl
  have hs2 := markPerfect_step env db1 deviceId license testId attemptId2
    today n2 p lrec _ _
    hd hl ht hp he hh hrec2 hbind huid hdr2 hur2 htid ha2 hprog1 hr1
    (by simp [h21])
    (by simp)
  obtain ⟨hresp2, hlic2, hrd2, hru2, hprog2⟩ := hs2
  -- step 3
  set db2 := (markPerfect env db1 deviceId license testId attemptId2
    today n2).2 with hdb2
  have hrec3 : db2.licenses license = some lrec := by
    rw [hlic2]; exact hrec2
  have hdr3 : isDeviceRevoked db2 deviceId = false := by
    unfold isDeviceRevoked; rw [hrd2]
    exact hdr2
  have hur3 : isUserRevoked db2 lrec.userId = false := by
    unfold isUserRevoked; rw [hru2]
    exact hur2
  have hr2 := Map.get_set_self
    (((db.progress lrec.userId).getD Map.empty).set (jsTrim testId)
      ⟨clampInt (ProgressRec.perfectCount ⟨0, [], []⟩ + 1) 0 3, n1,
        ProgressRec.recentAttempts ⟨0, [], []⟩ ++ [jsTrim attemptId1]⟩)
    (jsTrim testId)
    ⟨clampInt (ProgressRec.perfectCount
        ⟨clampInt (ProgressRec.perfectCount ⟨0, [], []⟩ + 1) 0 3, n1,
          ProgressRec.recentAttempts ⟨0, [], []⟩ ++ [jsTrim attemptId1]⟩ + 1) 0 3,
      n2,
      ProgressRec.recentAttempts
        ⟨clampInt (ProgressRec.perfectCount ⟨0, [], []⟩ + 1) 0 3, n1,
          ProgressRec.recentAttempts ⟨0, [], []⟩ ++ [jsTrim attemptId1]⟩
        ++ [jsTrim attemptId2]⟩
  have hs3 := markPerfect_step env db2 deviceId license testId attemptId3
    today n3 p lrec _ _
    hd hl ht hp he hh hrec3 hbind huid hdr3 hur3 htid ha3 hprog2
    (by rw [Map.get_set_self])
    (by simp [h31, h32])
    (by simp)
  obtain ⟨hresp3, _, _, _, _⟩ := hs3
  refine ⟨?_, hresp1.trans (by norm_num [clampInt, calcPercentFromPerfectCount]),
    hresp2.trans (by norm_num [clampInt, calcPercentFromPerfectCount]),
    hresp3.trans (by norm_num [clampInt, calcPercentFromPerfectCount])⟩
  -- GetProgress before any call reports zero
  unfold getProgress
  rw [hp, hrec]
  simp only [attachDeviceToUser_progress]
  simp [hd, hl, he, hh, hbind, huid, hdr, hur, htid, hnorec, clampInt,
    calcPercentFromPerfectCount]

/-- C6 (witness): the first of three concrete distinct-attempt calls on a
database with no progress records. -/
theorem c6_three_marks_witness :
    (markPerfect envZ dbA (str "devA") licA (str "math1") (str "x1")
        (str "20260101") (str "t1")).1 = .ok false 1 33 false := by
  exact (c6_three_marks envZ dbA (str "devA") licA (str "math1") (str "x1")
    (str "x2") (str "x3") (str "20260101") (str "t0") (str "t1") (str "t2")
    (str "t3")
    ⟨str "20990101", str "000000000000000000000000"⟩
    ⟨str "devA", str "20990101", str "userA", str "Alice", [], str "tc", []⟩
    (by decide) (by decide) (by decide) (by decide) (by decide) (by decide)
    rfl (by decide) (by decide) rfl rfl (by decide) (by decide) (by decide)
    (by decide) (by decide) (by decide) (by decide) rfl).2.1

/-! Claim C5: bounds and monotonicity of the stored perfectCount. -/

theorem clampInt_bounds (n : Int) : 0 ≤ clampInt n 0 3 ∧ clampInt n 0 3 ≤ 3 := by
  unfold clampInt
  constructor
  · exact le_max_left _ _
  · exact max_le (by norm_num) (min_le_left _ _)

theorem countOf_attach (db : DB) (u d t : Str) (u' t' : Str) :
    countOf (attachDeviceToUser db u d t) u' t' = countOf db u' t' := by
  unfold countOf
  rw [attachDeviceToUser_progress]

theorem markPerfectUpdate_countOf (db : DB) (u tid aId now : Str)
    (u' t' : Str) :
    countOf (markPerfectUpdate db u tid aId now).2 u' t' = countOf db u' t'
  ∨ countOf (markPerfectUpdate db u tid aId now).2 u' t'
      = clampInt (countOf db u' t' + 1) 0 3 := by
  by_cases hcond : (decide (aId ≠ [])
      && ((((db.progress u).getD Map.empty) tid).getD
          ⟨0, [], []⟩).recentAttempts.contains aId) = true
  · rw [markPerfectUpdate_spec_dup db u tid aId now _ _ rfl rfl hcond]
    left
    unfold countOf
    by_cases hu : u' = u
    · subst hu
      show ((((db.progress.set u' _) u').getD Map.empty t').getD _).perfectCount = _
      rw [Map.get_set_self, Option.getD_some]
      by_cases ht : t' = tid
      · subst ht
        rw [Map.get_set_self]
        rfl
      · rw [Map.get_set_ne _ _ ht]
    · show ((((db.progress.set u _) u').getD Map.empty t').getD _).perfectCount = _
      rw [Map.get_set_ne _ _ hu]
  · have hcond' := Bool.eq_false_iff.mpr hcond
    rw [markPerfectUpdate_spec_notdup db u tid aId now _ _ rfl rfl hcond']
    by_cases hu : u' = u
    · subst hu
      by_cases ht : t' = tid
      · subst ht
        right
        unfold countOf
        show ((((db.progress.set u' _) u').getD Map.empty t').getD _).perfectCount = _
        rw [Map.get_set_self, Option.getD_some, Map.get_set_self]
        rfl
      · left
        unfold countOf
        show ((((db.progress.set u' _) u').getD Map.empty t').getD _).perfectCount = _
        rw [Map.get_set_self, Option.getD_some, Map.get_set_ne _ _ ht]
    · left
      unfold countOf
      show ((((db.progress.set u _) u').getD Map.empty t').getD _).perfectCount = _
      rw [Map.get_set_ne _ _ hu]

theorem markPerfect_state_cases (env : Env) (db : DB)
    (deviceId license testId attemptId today now : Str) :
    (markPerfect env db deviceId license testId attemptId today now).2 = db
  ∨ ∃ u, (markPerfect env db deviceId license testId attemptId today now).2
      = (markPerfectUpdate (attachDeviceToUser db u deviceId now) u
          (jsTrim testId) (jsTrim attemptId) now).2 := by
  simp only [markPerfect]
  repeat' split
  all_goals try (left; rfl)
  all_goals (right; exact ⟨_, rfl⟩)

theorem markPerfect_countOf (env : Env) (db : DB)
    (deviceId license testId attemptId today now : Str) (u' t' : Str) :
    countOf (markPerfect env db deviceId license testId attemptId
        today now).2 u' t' = countOf db u' t'
  ∨ countOf (markPerfect env db deviceId license testId attemptId
        today now).2 u' t' = clampInt (countOf db u' t' + 1) 0 3 := by
  rcases markPerfect_state_cases env db deviceId license testId attemptId
    today now with h | ⟨u, h⟩
  · left; rw [h]
  · rw [h]
    have hx := markPerfectUpdate_countOf
      (attachDeviceToUser db u deviceId now) u (jsTrim testId)
      (jsTrim attemptId) now u' t'
    rwa [countOf_attach] at hx

theorem getProgress_state_cases (env : Env) (db : DB)
    (deviceId license : Str) (testIds : List Str) (today now : Str) :
    (getProgress env db deviceId license testIds today now).2 = db
  ∨ ∃ u, (getProgress env db deviceId license testIds today now).2
      = { attachDeviceToUser db u deviceId now with
          progress := ((attachDeviceToUser db u deviceId now).progress.set u
            (((attachDeviceToUser db u deviceId now).progress u).getD
              Map.empty)) } := by
  simp only [getProgress]
  repeat' split
  all_goals try (left; rfl)
  all_goals (right; exact ⟨_, rfl⟩)

theorem getProgress_countOf (env : Env) (db : DB)
    (deviceId license : Str) (testIds : List Str) (today now : Str)
    (u' t' : Str) :
    countOf (getProgress env db deviceId license testIds today now).2 u' t'
      = countOf db u' t' := by
  rcases getProgress_state_cases env db deviceId license testIds today now
    with h | ⟨u, h⟩
  · rw [h]
  · rw [h]
    unfold countOf
    simp only [attachDeviceToUser_progress]
    by_cases hu : u' = u
    · subst hu
      rw [Map.get_set_self, Option.getD_some]
    · rw [Map.get_set_ne _ _ hu]

/-- C5 (counterexample): in the `part_001` variant, MarkPerfect has no
clamp and no dedup: four calls for the same module drive the stored
counter to 4, leaving the claimed range [0,3]. -/
theorem c5_counterexample :
    (markPerfectP1 envZ
      (markPerfectP1 envZ
        (markPerfectP1 envZ
          (markPerfectP1 envZ pgA (str "devA")
            (str "20990101-0000000000000000000000000000000000000000000000000000000000000000")
            (str "m1") (str "t1")).2
          (str "devA")
          (str "20990101-0000000000000000000000000000000000000000000000000000000000000000")
          (str "m1") (str "t2")).2
        (str "devA")
        (str "20990101-0000000000000000000000000000000000000000000000000000000000000000")
        (str "m1") (str "t3")).2
      (str "devA")
      (str "20990101-0000000000000000000000000000000000000000000000000000000000000000")
      (str "m1") (str "t4")).1 = .ok (str "m1") 4
  ∧ ((markPerfectP1 envZ
      (markPerfectP1 envZ
        (markPerfectP1 envZ
          (markPerfectP1 envZ pgA (str "devA")
            (str "20990101-0000000000000000000000000000000000000000000000000000000000000000")
            (str "m1") (str "t1")).2
          (str "devA")
          (str "20990101-0000000000000000000000000000000000000000000000000000000000000000")
          (str "m1") (str "t2")).2
        (str "devA")
        (str "20990101-0000000000000000000000000000000000000000000000000000000000000000")
        (str "m1") (str "t3")).2
      (str "devA")
      (str "20990101-0000000000000000000000000000000000000000000000000000000000000000")
      (str "m1") (str "t4")).2.progress (str "userA")).map
        (fun r => r.perfect (str "m1")) = some (some ⟨4⟩)
  ∧ ¬ ((4 : Int) ≤ 3) := by
  refine ⟨by decide, by decide, by decide⟩

/-- C5 (amended, for `src/server.js`): every MarkPerfect call either
leaves a stored count unchanged or replaces it by the clamped increment;
under the [0,3] invariant each call keeps every count in [0,3] and never
decreases it; GetProgress never changes any stored count; any sequence of
MarkPerfect calls preserves the [0,3] invariant; and an authorised
non-deduped call increments the addressed count by exactly 1 when it is
below 3 and leaves it at 3 when saturated.  The `part_001` variant's
unclamped counter violates the invariant (see the counterexample). -/
theorem c5_amended :
    (∀ (env : Env) (db : DB) (deviceId license testId attemptId today now
        u t : Str),
      countOf (markPerfect env db deviceId license testId attemptId
          today now).2 u t = countOf db u t
      ∨ countOf (markPerfect env db deviceId license testId attemptId
          today now).2 u t = clampInt (countOf db u t + 1) 0 3)
  ∧ (∀ (env : Env) (db : DB) (deviceId license testId attemptId today now
        u t : Str),
      0 ≤ countOf db u t → countOf db u t ≤ 3 →
      0 ≤ countOf (markPerfect env db deviceId license testId attemptId
          today now).2 u t
      ∧ countOf (markPerfect env db deviceId license testId attemptId
          today now).2 u t ≤ 3
      ∧ countOf db u t ≤ countOf (markPerfect env db deviceId license testId
          attemptId today now).2 u t)
  ∧ (∀ (env : Env) (db : DB) (deviceId license : Str) (testIds : List Str)
        (today now u t : Str),
      countOf (getProgress env db deviceId license testIds today now).2 u t
        = countOf db u t)
  ∧ (∀ (env : Env) (db : DB) (calls : List MarkCall),
      (∀ u t, 0 ≤ countOf db u t ∧ countOf db u t ≤ 3) →
      ∀ u t, 0 ≤ countOf (runMarks env db calls) u t
        ∧ countOf (runMarks env db calls) u t ≤ 3)
  ∧ (∀ (env : Env) (db : DB)
        (deviceId license testId attemptId today now : Str)
        (p : Parsed) (lrec : LicenseRec) (B : Map ProgressRec)
        (pR : ProgressRec),
      deviceId ≠ [] → license ≠ [] → testId ≠ [] →
      parseLicense license = some p →
      jsLt p.expiry today = false →
      computeLicenseHash env deviceId p.expiry = p.hash →
      db.licenses license = some lrec →
      lrec.deviceId = deviceId →
      lrec.userId ≠ [] →
      isDeviceRevoked db deviceId = false →
      isUserRevoked db lrec.userId = false →
      jsTrim testId ≠ [] →
      (db.progress lrec.userId).getD Map.empty = B →
      (B (jsTrim testId)).getD ⟨0, [], []⟩ = pR →
      (decide (jsTrim attemptId ≠ [])
        && pR.recentAttempts.contains (jsTrim attemptId)) = false →
      (0 ≤ pR.perfectCount → pR.perfectCount < 3 →
        countOf (markPerfect env db deviceId license testId attemptId
            today now).2 lrec.userId (jsTrim testId)
          = countOf db lrec.userId (jsTrim testId) + 1)
      ∧ (pR.perfectCount = 3 →
        countOf (markPerfect env db deviceId license testId attemptId
            today now).2 lrec.userId (jsTrim testId) = 3)) := by
  have hstep : ∀ (env : Env) (db : DB)
      (deviceId license testId attemptId today now u t : Str),
      0 ≤ countOf db u t → countOf db u t ≤ 3 →
      0 ≤ countOf (markPerfect env db deviceId license testId attemptId
          today now).2 u t
      ∧ countOf (markPerfect env db deviceId license testId attemptId
          today now).2 u t ≤ 3
      ∧ countOf db u t ≤ countOf (markPerfect env db deviceId license testId
          attemptId today now).2 u t := by
    intro env db deviceId license testId attemptId today now u t h0 h3
    rcases markPerfect_countOf env db deviceId license testId attemptId
      today now u t with h | h <;> rw [h]
    · exact ⟨h0, h3, le_refl _⟩
    · obtain ⟨hb0, hb3⟩ := clampInt_bounds (countOf db u t + 1)
      refine ⟨hb0, hb3, ?_⟩
      unfold clampInt
      rcases min_cases 3 (countOf db u t + 1) with ⟨h1, h2⟩ | ⟨h1, h2⟩ <;>
        rcases max_cases (0 : Int) (min 3 (countOf db u t + 1)) with
          ⟨h4, h5⟩ | ⟨h4, h5⟩ <;> omega
  refine ⟨markPerfect_countOf, hstep, getProgress_countOf, ?_, ?_⟩
  · intro env db calls hinv
    induction calls generalizing db with
    | nil => intro u t; exact hinv u t
    | cons c cs ih =>
      intro u t
      have hnext : ∀ u' t',
          0 ≤ countOf (markPerfect env db c.deviceId c.license c.testId
              c.attemptId c.today c.now).2 u' t'
          ∧ countOf (markPerfect env db c.deviceId c.license c.testId
              c.attemptId c.today c.now).2 u' t' ≤ 3 := by
        intro u' t'
        have hx := hstep env db c.deviceId c.license c.testId c.attemptId
          c.today c.now u' t' (hinv u' t').1 (hinv u' t').2
        exact ⟨hx.1, hx.2.1⟩
      have := ih ((markPerfect env db c.deviceId c.license c.testId
          c.attemptId c.today c.now).2) hnext u t
      simpa only [runMarks, List.foldl_cons] using this
  · intro env db deviceId license testId attemptId today now p lrec B pR
      hd hl ht hp he hh hrec hbind huid hdr hur htid hb hr hdup
    have h1 := markPerfect_auth_pass env db deviceId license testId attemptId
      today now p lrec hd hl ht hp he hh hrec hbind huid hdr hur htid
    have hb1 : ((attachDeviceToUser db lrec.userId deviceId now).progress
        lrec.userId).getD Map.empty = B := by
      rw [attachDeviceToUser_progress]; exact hb
    have hspec := markPerfectUpdate_spec_notdup
      (attachDeviceToUser db lrec.userId deviceId now) lrec.userId
      (jsTrim testId) (jsTrim attemptId) now B pR hb1 hr hdup
    have hcount : countOf (markPerfect env db deviceId license testId
        attemptId today now).2 lrec.userId (jsTrim testId)
        = clampInt (pR.perfectCount + 1) 0 3 := by
      rw [h1, hspec]
      unfold countOf
      show (((((attachDeviceToUser db lrec.userId deviceId now).progress.set
          lrec.userId _) lrec.userId).getD Map.empty (jsTrim testId)).getD
          _).perfectCount = _
      rw [Map.get_set_self, Option.getD_some, Map.get_set_self]
      rfl
    have hold : countOf db lrec.userId (jsTrim testId) = pR.perfectCount := by
      unfold countOf
      rw [hb, hr]
    constructor
    · intro h0 hlt
      rw [hcount, hold]
      exact clampInt_of_bounds (by omega) (by omega)
    · intro h3
      rw [hcount, h3]
      decide

/-- C5 (witness): an authorised non-deduped call on a record with count 2
increments the stored count by exactly one. -/
theorem c5_amended_witness :
    countOf (markPerfect envZ dbDup (str "devA") licA (str "math1")
        (str "a9") (str "20260101") (str "t2")).2 (str "userA") (str "math1")
      = countOf dbDup (str "userA") (str "math1") + 1 := by
  exact (c5_amended.2.2.2.2 envZ dbDup (str "devA") licA (str "math1")
    (str "a9") (str "20260101") (str "t2")
    ⟨str "20990101", str "000000000000000000000000"⟩
    ⟨str "devA", str "20990101", str "userA", str "Alice", [], str "tc", []⟩
    (Map.empty.set (str "math1") ⟨2, str "t1", [str "a1"]⟩)
    ⟨2, str "t1", [str "a1"]⟩
    (by decide) (by decide) (by decide) (by decide) (by decide) (by decide)
    rfl (by decide) (by decide) rfl rfl (by decide) rfl rfl (by decide)).1
    (by decide) (by decide)

/-! Claim C7: user revocation and restoration. -/

theorem DB.ext_of_fields {a b : DB}
    (h1 : a.licenses = b.licenses)
    (h2 : a.revokedDevices = b.revokedDevices)
    (h3 : a.revokedUsers = b.revokedUsers)
    (h4 : a.users = b.users)
    (h5 : a.userDevices = b.userDevices)
    (h6 : a.progress = b.progress) : a = b := by
  cases a
  cases b
  simp only at h1 h2 h3 h4 h5 h6
  subst h1 h2 h3 h4 h5 h6
  rfl

theorem revokeUser_spec (env : Env) (db : DB) (k u reason now : Str)
    (usr : UserRec) (ud : UserDevices)
    (hak : env.adminKey = some k)
    (hnorm : normalizeUserId u = u) (hu : u ≠ [])
    (husr : db.users u = some usr)
    (hud : db.userDevices u = some ud) :
    revokeUser env db (some k) u reason now
      = (.ok u true,
        { db with revokedUsers := (db.revokedUsers.set u
            ⟨(if reason = [] then str "revoked" else reason).take 200, now⟩) }) := by
  unfold revokeUser
  rw [hak]
  simp only [hnorm, hu, if_neg (fun h => hu h)]
  have hfix : ensureUserRecord db u [] [] now = db := by
    apply DB.ext_of_fields
    · exact ensureUserRecord_licenses db u [] [] now
    · exact ensureUserRecord_revokedDevices db u [] [] now
    · exact ensureUserRecord_revokedUsers db u [] [] now
    · exact ensureUserRecord_users_of_present husr now
    · exact ensureUserRecord_userDevices_of_present hud [] [] now
    · exact ensureUserRecord_progress db u [] [] now
  rw [hfix]
  simp

theorem unrevokeUser_spec (env : Env) (db : DB) (k u : Str)
    (hak : env.adminKey = some k)
    (hnorm : normalizeUserId u = u) (hu : u ≠ []) :
    unrevokeUser env db (some k) u
      = (.ok u false, { db with revokedUsers := db.revokedUsers.del u }) := by
  unfold unrevokeUser
  rw [hak]
  simp [hnorm, hu]

/-- C7: with a persisted license owned by `u` whose signature, expiry and
device binding are all valid, Verify succeeds; after RevokeUser(u) both
Verify and MarkPerfect fail with `User revoked`; UnrevokeUser(u) restores
the exact previous database, so the same calls return the same results as
before the revocation. -/
theorem c7_revoke_unrevoke
    (env : Env) (db : DB)
    (k deviceId license testId attemptId today nowR nowV nowM fidV
      u reason : Str)
    (p : Parsed) (lrec : LicenseRec) (usr : UserRec) (ud : UserDevices)
    (hak : env.adminKey = some k)
    (hnorm : normalizeUserId u = u) (hu : u ≠ [])
    (husr : db.users u = some usr) (hud : db.userDevices u = some ud)
    (hur0 : db.revokedUsers u = none)
    (hd : deviceId ≠ []) (hl : license ≠ []) (ht : testId ≠ [])
    (hp : parseLicense license = some p)
    (he : jsLt p.expiry today = false)
    (hh : computeLicenseHash env deviceId p.expiry = p.hash)
    (hrec : db.licenses license = some lrec)
    (hbind : lrec.deviceId = deviceId)
    (howner : lrec.userId = u)
    (hdr : isDeviceRevoked db deviceId = false)
    (htid : jsTrim testId ≠ []) :
    (verify env db deviceId license today nowV fidV).1
        = .ok u p.expiry
            (if lrec.userName = [] then str "User" else lrec.userName)
            lrec.examDate true false
  ∧ (verify env (revokeUser env db (some k) u reason nowR).2 deviceId license
        today nowV fidV).1 = .err 403 (str "User revoked")
  ∧ (markPerfect env (revokeUser env db (some k) u reason nowR).2 deviceId
        license testId attemptId today nowM).1 = .err 403 (str "User revoked")
  ∧ (unrevokeUser env (revokeUser env db (some k) u reason nowR).2
        (some k) u).2 = db
  ∧ (verify env (unrevokeUser env (revokeUser env db (some k) u reason nowR).2
        (some k) u).2 deviceId license today nowV fidV).1
      = (verify env db deviceId license today nowV fidV).1 := by
  have hfne : lrec.userId ≠ [] := by rw [howner]; exact hu
  have hur' : isUserRevoked db lrec.userId = false := by
    unfold isUserRevoked
    rw [howner, hur0]
    rfl
  have hspecR := revokeUser_spec env db k u reason nowR usr ud hak hnorm hu
    husr hud
  have hbefore : (verify env db deviceId license today nowV fidV).1
      = .ok u p.expiry
          (if lrec.userName = [] then str "User" else lrec.userName)
          lrec.examDate true false := by
    unfold verify
    rw [hp]
    simp only [hd, hl, he, hh, hdr, hrec]
    rw [← howner]
    simp [hur', hfne, hbind]
  have hrevoked1 : isUserRevoked (revokeUser env db (some k) u reason
      nowR).2 lrec.userId = true := by
    rw [hspecR]
    unfold isUserRevoked
    show ((db.revokedUsers.set u _) lrec.userId).isSome = true
    rw [howner, Map.get_set_self]
    rfl
  have hlic1 : (revokeUser env db (some k) u reason nowR).2.licenses license
      = some lrec := by
    rw [hspecR]
    exact hrec
  have hdr1 : isDeviceRevoked (revokeUser env db (some k) u reason nowR).2
      deviceId = false := by
    rw [hspecR]
    exact hdr
  have hstate : (unrevokeUser env (revokeUser env db (some k) u reason
      nowR).2 (some k) u).2 = db := by
    rw [hspecR, unrevokeUser_spec env _ k u hak hnorm hu]
    apply DB.ext_of_fields
    · rfl
    · rfl
    · show ((db.revokedUsers.set u _).del u) = db.revokedUsers
      exact Map.del_set _ hur0
    · rfl
    · rfl
    · rfl
  refine ⟨hbefore, ?_, ?_, hstate, by rw [hstate]⟩
  · unfold verify
    rw [hp]
    simp only [hd, hl, he, hh, hdr1, hlic1]
    simp [hrevoked1, hfne]
  · unfold markPerfect
    rw [hp]
    simp only [hd, hl, ht, he, hh, hdr1, hlic1]
    simp [hrevoked1, hfne, hbind, htid]

/-- C7 (witness): concrete revoke of `userA` blocks Verify of its bound
license. -/
theorem c7_revoke_unrevoke_witness :
    (verify envZ (revokeUser envZ dbA (some (str "adminkey")) (str "userA")
        (str "r") (str "tr")).2 (str "devA") licA (str "20260101")
        (str "tv") (str "fv")).1 = .err 403 (str "User revoked") := by
  exact (c7_revoke_unrevoke envZ dbA (str "adminkey") (str "devA") licA
    (str "math1") (str "a1") (str "20260101") (str "tr") (str "tv")
    (str "tm") (str "fv") (str "userA") (str "r")
    ⟨str "20990101", str "000000000000000000000000"⟩
    ⟨str "devA", str "20990101", str "userA", str "Alice", [], str "tc", []⟩
    ⟨str "Alice", [], str "tc"⟩
    ⟨fun d => d = str "devA", str "t0"⟩
    rfl (by decide) (by decide) rfl rfl rfl
    (by decide) (by decide) (by decide) (by decide) (by decide) (by decide)
    rfl (by decide) (by decide) rfl (by decide)).2.1

/-! Claim C8: atomicity of error responses. -/

theorem markPerfectUpdate_resp_ok (db : DB) (u tid aId now : Str)
    (c : Nat) (m : Str) :
    (markPerfectUpdate db u tid aId now).1 ≠ .err c m := by
  simp only [markPerfectUpdate]
  split <;> simp

/-- C8 (counterexample): in the `part_000` variant, MarkPerfect with a
whitespace-only `testId` passes the truthiness check, so
`authFromDeviceLicense` persists the device-tracking update (`saveDB`)
before the `Bad testId` error is returned: the persisted state differs
from the state before the call. -/
theorem c8_counterexample :
    (markPerfectP0 envZ dbA (str "devA") licA (str " ") (str "a1")
        (str "20260101") (str "tNew")).1 = .err 400 (str "Bad testId")
  ∧ ((markPerfectP0 envZ dbA (str "devA") licA (str " ") (str "a1")
        (str "20260101") (str "tNew")).2.userDevices (str "userA")).map
        (fun x => x.lastSeenAt) = some (str "tNew")
  ∧ (dbA.userDevices (str "userA")).map (fun x => x.lastSeenAt)
      = some (str "t0")
  ∧ str "tNew" ≠ str "t0"
  ∧ (markPerfectP0 envZ dbA (str "devA") licA (str " ") (str "a1")
        (str "20260101") (str "tNew")).2 ≠ dbA := by
  refine ⟨by decide, by decide, by decide, by decide, ?_⟩
  intro hEq
  have h1 : ((markPerfectP0 envZ dbA (str "devA") licA (str " ") (str "a1")
      (str "20260101") (str "tNew")).2.userDevices (str "userA")).map
      (fun x => x.lastSeenAt) = some (str "tNew") := by decide
  rw [hEq] at h1
  have h2 : (dbA.userDevices (str "userA")).map (fun x => x.lastSeenAt)
      = some (str "t0") := by decide
  rw [h2] at h1
  exact absurd (Option.some.inj h1) (by decide)

/-- C8 (amended, for `src/server.js`): every operation — Verify,
AdminGenerate, revoke/unrevoke of devices and users, GetProgress and
MarkPerfect — leaves the persisted database exactly unchanged whenever it
returns an error response; mutations are persisted only on success
(including deduped-success) paths.  The `part_000` variant violates this
in its MarkPerfect (see the counterexample). -/
theorem c8_amended :
    (∀ (env : Env) (db : DB) (deviceId license today now freshId : Str)
        (c : Nat) (m : Str),
      (verify env db deviceId license today now freshId).1 = .err c m →
      (verify env db deviceId license today now freshId).2 = db)
  ∧ (∀ (env : Env) (db : DB) (headerKey : Option Str)
        (deviceId expiry userName examDate userId now freshId : Str)
        (c : Nat) (m : Str),
      (adminGenerate env db headerKey deviceId expiry userName examDate
          userId now freshId).1 = .err c m →
      (adminGenerate env db headerKey deviceId expiry userName examDate
          userId now freshId).2 = db)
  ∧ (∀ (env : Env) (db : DB) (headerKey : Option Str)
        (deviceId reason now : Str) (c : Nat) (m : Str),
      (revokeDevice env db headerKey deviceId reason now).1 = .err c m →
      (revokeDevice env db headerKey deviceId reason now).2 = db)
  ∧ (∀ (env : Env) (db : DB) (headerKey : Option Str) (deviceId : Str)
        (c : Nat) (m : Str),
      (unrevokeDevice env db headerKey deviceId).1 = .err c m →
      (unrevokeDevice env db headerKey deviceId).2 = db)
  ∧ (∀ (env : Env) (db : DB) (headerKey : Option Str)
        (userId reason now : Str) (c : Nat) (m : Str),
      (revokeUser env db headerKey userId reason now).1 = .err c m →
      (revokeUser env db headerKey userId reason now).2 = db)
  ∧ (∀ (env : Env) (db : DB) (headerKey : Option Str) (userId : Str)
        (c : Nat) (m : Str),
      (unrevokeUser env db headerKey userId).1 = .err c m →
      (unrevokeUser env db headerKey userId).2 = db)
  ∧ (∀ (env : Env) (db : DB) (deviceId license : Str)
        (testIds : List Str) (today now : Str) (c : Nat) (m : Str),
      (getProgress env db deviceId license testIds today now).1 = .err c m →
      (getProgress env db deviceId license testIds today now).2 = db)
  ∧ (∀ (env : Env) (db : DB)
        (deviceId license testId attemptId today now : Str)
        (c : Nat) (m : Str),
      (markPerfect env db deviceId license testId attemptId today now).1
          = .err c m →
      (markPerfect env db deviceId license testId attemptId today now).2
          = db) := by
  refine ⟨?_, ?_, ?_, ?_, ?_, ?_, ?_, ?_⟩
  · intro env db deviceId license today now freshId c m
    simp only [verify]
    repeat' split
    all_goals intro h
    all_goals first | rfl | (exact absurd h (by simp))
  · intro env db headerKey deviceId expiry userName examDate userId now
      freshId c m
    simp only [adminGenerate]
    repeat' split
    all_goals intro h
    all_goals first | rfl | (exact absurd h (by simp))
  · intro env db headerKey deviceId reason now c m
    simp only [revokeDevice]
    repeat' split
    all_goals intro h
    all_goals first | rfl | (exact absurd h (by simp))
  · intro env db headerKey deviceId c m
    simp only [unrevokeDevice]
    repeat' split
    all_goals intro h
    all_goals first | rfl | (exact absurd h (by simp))
  · intro env db headerKey userId reason now c m
    simp only [revokeUser]
    repeat' split
    all_goals intro h
    all_goals first | rfl | (exact absurd h (by simp))
  · intro env db headerKey userId c m
    simp only [unrevokeUser]
    repeat' split
    all_goals intro h
    all_goals first | rfl | (exact absurd h (by simp))
  · intro env db deviceId license testIds today now c m
    simp only [getProgress]
    repeat' split
    all_goals intro h
    all_goals first | rfl | (exact absurd h (by simp))
  · intro env db deviceId license testId attemptId today now c m
    simp only [markPerfect]
    repeat' split
    all_goals intro h
    all_goals first
      | rfl
      | (exact absurd h (by simp))
      | (exact absurd h (markPerfectUpdate_resp_ok _ _ _ _ _ c m))

/-- C8 (witness): a Verify call missing its deviceId errors and leaves the
empty database unchanged. -/
theorem c8_amended_witness :
    (verify envZ DB.empty [] (str "x") (str "20260101") (str "t")
        (str "f")).2 = DB.empty := by
  exact c8_amended.1 envZ DB.empty [] (str "x") (str "20260101") (str "t")
    (str "f") 400 (str "Missing deviceId/license") (by decide)

end N1License
